import Mathlib

/-!
Shallow embedding of the decision core of the Smart-Irrigation-Decision-Support-System
repository (src/utils.py), together with theorems settling the frozen claims about it.

Python floats are modelled as exact rationals (ℚ); the Python `round(x, n)` (banker
rounding, half to even) is modelled by `pyRound`.  Python strings are Lean `String`s.
Optional arguments defaulting to `None` are modelled by `Option`.
-/

namespace Irrigation

/-- Banker rounding of a rational to the nearest integer, ties to even:
the model of the Python built-in `round` on exact values. -/
def roundHalfEven (q : ℚ) : ℤ :=
  if q - ⌊q⌋ < 1/2 then ⌊q⌋
  else if 1/2 < q - ⌊q⌋ then ⌊q⌋ + 1
  else if Even ⌊q⌋ then ⌊q⌋ else ⌊q⌋ + 1

/-- Model of the Python `round(q, d)`: round to `d` decimal places, half to even. -/
def pyRound (q : ℚ) (d : ℕ) : ℚ := (roundHalfEven (q * 10 ^ d) : ℚ) / 10 ^ d

theorem roundHalfEven_intCast (n : ℤ) : roundHalfEven (n : ℚ) = n := by
  unfold roundHalfEven
  rw [Int.floor_intCast]
  norm_num

theorem roundHalfEven_le (q : ℚ) (n : ℤ) (h : q ≤ n) : roundHalfEven q ≤ n := by
  unfold roundHalfEven
  have hf : ⌊q⌋ ≤ n := by
    have := Int.floor_le_floor h
    rwa [Int.floor_intCast] at this
  by_cases hfe : ⌊q⌋ = n
  · have hfl : (⌊q⌋ : ℚ) = (n : ℚ) := by exact_mod_cast hfe
    have h1 : q - (⌊q⌋ : ℚ) < 1/2 := by rw [hfl]; linarith
    rw [if_pos h1]; exact hf
  · have hlt : ⌊q⌋ + 1 ≤ n := by omega
    split_ifs <;> omega

theorem roundHalfEven_ge (q : ℚ) (n : ℤ) (h : (n : ℚ) ≤ q) : n ≤ roundHalfEven q := by
  unfold roundHalfEven
  have hf : n ≤ ⌊q⌋ := Int.le_floor.mpr h
  split_ifs <;> omega

theorem pyRound_le (q : ℚ) (d : ℕ) (n : ℤ) (h : q ≤ n) : pyRound q d ≤ n := by
  unfold pyRound
  rw [div_le_iff₀ (by positivity)]
  have h1 : q * 10 ^ d ≤ ((n * 10 ^ d : ℤ) : ℚ) := by
    push_cast
    have : (0:ℚ) < 10 ^ d := by positivity
    nlinarith
  have := roundHalfEven_le (q * 10 ^ d) (n * 10 ^ d) h1
  calc ((roundHalfEven (q * 10 ^ d) : ℚ)) ≤ ((n * 10 ^ d : ℤ) : ℚ) := by exact_mod_cast this
    _ = (n : ℚ) * 10 ^ d := by push_cast; ring

theorem pyRound_ge (q : ℚ) (d : ℕ) (n : ℤ) (h : (n : ℚ) ≤ q) : (n : ℚ) ≤ pyRound q d := by
  unfold pyRound
  rw [le_div_iff₀ (by positivity)]
  have h1 : ((n * 10 ^ d : ℤ) : ℚ) ≤ q * 10 ^ d := by
    push_cast
    have : (0:ℚ) < 10 ^ d := by positivity
    nlinarith
  have := roundHalfEven_ge (q * 10 ^ d) (n * 10 ^ d) h1
  calc (n : ℚ) * 10 ^ d = ((n * 10 ^ d : ℤ) : ℚ) := by push_cast; ring
    _ ≤ (roundHalfEven (q * 10 ^ d) : ℚ) := by exact_mod_cast this

theorem pyRound_intCast (n : ℤ) (d : ℕ) : pyRound (n : ℚ) d = n := by
  unfold pyRound
  have : (n : ℚ) * 10 ^ d = ((n * 10 ^ d : ℤ) : ℚ) := by push_cast; ring
  rw [this, roundHalfEven_intCast]
  push_cast
  field_simp

/-! ### ForecastSuitabilityScorer (src/utils.py, analyze_hourly_irrigation) -/

/-- One record of the hourly forecast list, holding the fields the analyzer reads. -/
structure ForecastSlot where
  dt_txt : String
  temp : ℚ
  humidity : ℚ
  wind : ℚ
  /-- truthiness of `hour.get("rain")` -/
  rain : Bool
deriving Repr, DecidableEq

/-- Per-slot irrigation suitability score from the source:
`score = (humidity * 0.4) - (temp * 0.3) - (wind * 0.6)`. -/
def irrigationSuitabilityScore (temp humidity wind : ℚ) : ℚ :=
  humidity * 0.4 - temp * 0.3 - wind * 0.6

/-- One row of the table built by `analyze_hourly_irrigation`. -/
structure HourlyRow where
  time : String
  temp : ℚ
  humidity : ℚ
  wind : ℚ
  score : ℚ
deriving Repr, DecidableEq

/-- Result of `analyze_hourly_irrigation`: the rows, best hour, best score, rain flag. -/
structure HourlyAnalysis where
  rows : List HourlyRow
  best_hour : Option String
  best_score : ℚ
  rain_expected : Bool
deriving Repr, DecidableEq

private def analyzeLoop : List ForecastSlot → HourlyAnalysis → HourlyAnalysis
  | [], acc => acc
  | hour :: rest, acc =>
      let score := irrigationSuitabilityScore hour.temp hour.humidity hour.wind
      let row : HourlyRow :=
        { time := hour.dt_txt, temp := pyRound hour.temp 1, humidity := hour.humidity
          wind := pyRound hour.wind 1, score := pyRound score 2 }
      let acc1 :=
        if acc.best_score < score then
          { acc with best_score := score, best_hour := some hour.dt_txt }
        else acc
      let acc2 := { acc1 with rows := acc1.rows ++ [row],
                              rain_expected := acc1.rain_expected || hour.rain }
      analyzeLoop rest acc2

/-- Embedding of `analyze_hourly_irrigation` over the first `hours` forecast slots. -/
def analyze_hourly_irrigation (slots : List ForecastSlot) (hours : ℕ) : HourlyAnalysis :=
  analyzeLoop (slots.take hours)
    { rows := [], best_hour := Option.none, best_score := -9999, rain_expected := false }

/-! ### ConfidenceScorer (src/utils.py, calculate_decision_confidence) -/

/-- Embedding of `calculate_decision_confidence`.  The point values are Python ints;
the final `round(score, 1)` is applied to the clamped integer total. -/
def calculate_decision_confidence (et0 : ℚ) (forecast_count : ℕ)
    (strategy_type : String) (rain_expected : Bool) (weather_risk : String) : ℚ :=
  let data_confidence : ℤ :=
    if forecast_count ≥ 8 then 40
    else if forecast_count ≥ 5 then 30
    else if forecast_count ≥ 3 then 20
    else 10
  let et0_confidence : ℤ :=
    if 0 < et0 ∧ et0 < 10 then 25
    else if 0 < et0 ∧ et0 < 15 then 20
    else 15
  let strategy_confidence : ℤ :=
    if strategy_type = "water_saving" then 20
    else if strategy_type = "risk_aware" then 15
    else 18
  let weather_confidence : ℤ :=
    if weather_risk = "low" then 15
    else if weather_risk = "medium" then 10
    else 5
  let rain_bonus : ℤ := if rain_expected then 5 else 0
  let total_confidence := data_confidence + et0_confidence + strategy_confidence +
    weather_confidence + rain_bonus
  let confidence_score : ℤ := min 100 (max 0 total_confidence)
  pyRound (confidence_score : ℚ) 1

/-! ### StrategyDecisionEngine (src/utils.py, generate_ai_irrigation_strategy) -/

/-- The public / municipality platform mode string used throughout the source. -/
def kamuMode : String := "🏛 Kamu / Belediye Modu"

/-- The classification-relevant fields of the dict returned by
`generate_ai_irrigation_strategy`.  The recommendation / reasoning / action-item
message strings are presentation text that does not influence these fields and is
not embedded. -/
structure StrategyResult where
  strategy_type : String
  strategy_name : String
  weather_risk : String
  field_size_category : String
deriving Repr, DecidableEq

/-- Embedding of the decision logic of `generate_ai_irrigation_strategy`. -/
def generate_ai_irrigation_strategy (platform_mode : String)
    (et0 _water_need area humidity temp wind : ℚ) (rain_expected : Bool)
    (drought_risk_score : Option ℚ) (_user_type : Option String)
    (geojson_drought_category : Option String) (basin_water_stressed : Option Bool) :
    StrategyResult :=
  let weather_risk : String :=
    if temp > 30 ∨ humidity < 30 ∨ wind > 5 then "high"
    else if temp > 25 ∨ humidity < 40 then "medium"
    else "low"
  let field_size_category : String :=
    if platform_mode = kamuMode then "regional"
    else if area < 50 then "small"
    else if area < 500 then "medium"
    else "large"
  -- geojson_drought_category in ("High", "Extreme")
  let geojson_force_water_saving : Bool :=
    match geojson_drought_category with
    | Option.some s => s == "High" || s == "Extreme"
    | Option.none => false
  -- basin_force = bool(basin_water_stressed)
  let basin_force : Bool := basin_water_stressed.getD false
  -- `drought_risk_score and drought_risk_score > 2` (None and 0.0 are falsy)
  let drought_trigger : Bool :=
    match drought_risk_score with
    | Option.some s => decide (s ≠ 0) && decide (s > 2)
    | Option.none => false
  if rain_expected || decide (et0 < 2) || geojson_force_water_saving || basin_force then
    { strategy_type := "water_saving", strategy_name := "Stratejik Su Koruma Modu"
      weather_risk, field_size_category }
  else if weather_risk == "high" || drought_trigger then
    { strategy_type := "risk_aware"
      strategy_name := "Risk Farkındalıklı Sulama — Stratejik Yönetim"
      weather_risk, field_size_category }
  else
    { strategy_type := "recommended", strategy_name := "Optimal Sulama Stratejisi"
      weather_risk, field_size_category }

/-! ### SustainabilityCalculator (src/utils.py, calculate_sustainability_metrics) -/

/-- The efficiency / timing / environmental sub-scores, each rounded to one decimal. -/
structure ScoreBreakdown where
  efficiency : ℚ
  timing : ℚ
  environmental : ℚ
deriving Repr, DecidableEq

/-- The dict returned by `calculate_sustainability_metrics`. -/
structure SustainabilityMetrics where
  water_saved : ℚ
  sustainability_score : ℚ
  cost_saved_tl : ℚ
  co2_saved_kg : ℚ
  environmental_impact_level : String
  environmental_impact_color : String
  base_water : ℚ
  score_breakdown : ScoreBreakdown
deriving Repr, DecidableEq

/-- Embedding of `calculate_sustainability_metrics`. -/
def calculate_sustainability_metrics (water_need et0 _area : ℚ) (rain_expected : Bool)
    (strategy_type platform_mode : String) : SustainabilityMetrics :=
  let base_water := water_need
  let water_saved :=
    if strategy_type = "water_saving" then base_water
    else if strategy_type = "risk_aware" then base_water * 0.2
    else base_water * 0.1
  let efficiency_score : ℚ :=
    if base_water > 0 then min 100 (water_saved / base_water * 100)
    else 100
  let timing_score : ℚ :=
    if rain_expected then 100
    else if strategy_type = "water_saving" then 95
    else 80
  let environmental_score : ℚ := max 0 (min 100 (100 - et0 * 5))
  let sustainability_score :=
    pyRound (efficiency_score * 0.4 + timing_score * 0.3 + environmental_score * 0.3) 1
  let sustainability_score := max 0 (min 100 sustainability_score)
  let water_cost_per_liter : ℚ := 0.01
  let cost_saved_tl := water_saved * water_cost_per_liter
  let cost_saved_tl := if platform_mode = kamuMode then cost_saved_tl * 10 else cost_saved_tl
  let co2_saved_kg := water_saved / 1000 * 0.5
  let impact :=
    if co2_saved_kg > 10 then ("Yüksek Etki", "success")
    else if co2_saved_kg > 5 then ("Orta Etki", "info")
    else ("Düşük Etki", "neutral")
  { water_saved := pyRound water_saved 1
    sustainability_score := sustainability_score
    cost_saved_tl := pyRound cost_saved_tl 2
    co2_saved_kg := pyRound co2_saved_kg 2
    environmental_impact_level := impact.1
    environmental_impact_color := impact.2
    base_water := pyRound base_water 1
    score_breakdown :=
      { efficiency := pyRound efficiency_score 1
        timing := pyRound timing_score 1
        environmental := pyRound environmental_score 1 } }

/-! ### Regional enhancement (src/utils.py, enhance_sustainability_with_regional_data) -/

/-- The `water_resources` sub-record of the regional-intelligence dict. -/
structure WaterResourcesData where
  data_available : Bool
  water_stress_index : Option ℚ
deriving Repr, DecidableEq

/-- The `drought_risk` sub-record of the regional-intelligence dict. -/
structure DroughtRiskData where
  data_available : Bool
  spi_index : Option ℚ
deriving Repr, DecidableEq

/-- The `agricultural_data` sub-record of the regional-intelligence dict. -/
structure AgriculturalData where
  data_available : Bool
  farmer_adoption_rate : Option ℚ
deriving Repr, DecidableEq

/-- The `watershed` sub-record of the regional-intelligence dict. -/
structure WatershedData where
  data_available : Bool
  water_stress_label : Option String
deriving Repr, DecidableEq

/-- The regional-intelligence dict consumed by the enhancement functions. -/
structure RegionalIntelligence where
  water_resources : WaterResourcesData
  drought_risk : DroughtRiskData
  agricultural_data : AgriculturalData
  watershed : WatershedData
deriving Repr, DecidableEq

/-- Water availability factor: `1.0 + (0.5 - water_stress)` clamped to `[0.5, 1.5]`. -/
def water_availability_factor (ri : RegionalIntelligence) : Option ℚ :=
  if ri.water_resources.data_available then
    ri.water_resources.water_stress_index.map fun ws => max 0.5 (min 1.5 (1 + (0.5 - ws)))
  else Option.none

/-- Drought impact factor: `1.0 + spi/6.0` clamped to `[0.5, 1.2]`. -/
def drought_impact_factor (ri : RegionalIntelligence) : Option ℚ :=
  if ri.drought_risk.data_available then
    ri.drought_risk.spi_index.map fun spi => max 0.5 (min 1.2 (1 + spi / 6))
  else Option.none

/-- Agricultural efficiency factor: `0.8 + adoption/250.0` clamped to `[0.8, 1.2]`. -/
def agricultural_efficiency_factor (ri : RegionalIntelligence) : Option ℚ :=
  if ri.agricultural_data.data_available then
    ri.agricultural_data.farmer_adoption_rate.map fun ar => max 0.8 (min 1.2 (0.8 + ar / 250))
  else Option.none

/-- Basin stress factor: flat `0.85` when the watershed stress label is `"Yüksek"`. -/
def basin_stress_factor (ri : RegionalIntelligence) : Option ℚ :=
  if ri.watershed.data_available && ri.watershed.water_stress_label == some "Yüksek" then
    some 0.85
  else Option.none

/-- The list of factors that are not `None`, in source order. -/
def regionalFactors (ri : RegionalIntelligence) : List ℚ :=
  [water_availability_factor ri, drought_impact_factor ri,
   agricultural_efficiency_factor ri, basin_stress_factor ri].filterMap id

/-- The `regional_context` sub-dict added by the enhancement. -/
structure RegionalContext where
  water_availability_factor : Option ℚ
  drought_impact_factor : Option ℚ
  agricultural_efficiency_factor : Option ℚ
  basin_stress_factor : Option ℚ
  data_source : String
  data_available : Bool
deriving Repr, DecidableEq

/-- The enhanced metrics dict: the (possibly score-adjusted) base record plus the keys
`sustainability_score_original`, `regional_adjustment_applied`, `regional_context`. -/
structure EnhancedMetrics where
  metrics : SustainabilityMetrics
  sustainability_score_original : Option ℚ
  regional_adjustment_applied : Bool
  regional_context : RegionalContext
deriving Repr, DecidableEq

/-- Embedding of `enhance_sustainability_with_regional_data`.  The Python
`any([...])` over the factor list is truthiness-based; every computed factor lies in
`[0.5, 1.5]` and is therefore truthy, so it reduces to "some factor is not None". -/
def enhance_sustainability_with_regional_data (base : SustainabilityMetrics)
    (ri : RegionalIntelligence) : EnhancedMetrics :=
  let waf := water_availability_factor ri
  let dif := drought_impact_factor ri
  let aef := agricultural_efficiency_factor ri
  let bsf := basin_stress_factor ri
  let truthyF : Option ℚ → Bool := fun o =>
    match o with
    | Option.some q => decide (q ≠ 0)
    | Option.none => false
  let has_any := truthyF waf || truthyF dif || truthyF aef || truthyF bsf
  let data_available := has_any || ri.water_resources.data_available ||
    ri.drought_risk.data_available || ri.agricultural_data.data_available ||
    ri.watershed.data_available
  let ctx : RegionalContext :=
    { water_availability_factor := waf, drought_impact_factor := dif
      agricultural_efficiency_factor := aef, basin_stress_factor := bsf
      data_source :=
        if has_any then "Regional Dataset Analysis"
        else "Dataset-powered insight (coming from regional data)"
      data_available := data_available }
  if data_available then
    -- base_score = enhanced_metrics.get("sustainability_score", 50); always present here
    let base_score := base.sustainability_score
    let factors := regionalFactors ri
    if factors ≠ [] then
      let composite_factor := factors.sum / factors.length
      let adjusted_score := base_score * composite_factor
      let adjusted_score := max 0 (min 100 adjusted_score)
      { metrics := { base with sustainability_score := pyRound adjusted_score 1 }
        sustainability_score_original := some base_score
        regional_adjustment_applied := true
        regional_context := ctx }
    else
      { metrics := base, sustainability_score_original := Option.none
        regional_adjustment_applied := false, regional_context := ctx }
  else
    { metrics := base, sustainability_score_original := Option.none
      regional_adjustment_applied := false, regional_context := ctx }

/-! ### ScenarioSimulator (src/utils.py, simulate_scenarios) -/

/-- One scenario entry. -/
structure Scenario where
  name : String
  water_used : ℚ
  sustainability_score : ℚ
deriving Repr, DecidableEq

/-- The dict returned by `simulate_scenarios` (description strings omitted;
they are constants that no claim reads). -/
structure ScenarioSet where
  today : Scenario
  delay : Scenario
  water_saving : Scenario
  normal : Scenario
  best_scenario : String
  worst_scenario : String
  water_difference : ℚ
  recommended_scenario : String
deriving Repr, DecidableEq

/-- First element attaining the minimum of `cost`, scanning left to right:
the model of the Python `min(..., key=...)`. -/
def firstMinBy (cost : Scenario → ℚ) (x : Scenario) (xs : List Scenario) : Scenario :=
  xs.foldl (fun acc y => if cost y < cost acc then y else acc) x

/-- First element attaining the maximum of `cost`, scanning left to right:
the model of the Python `max(..., key=...)`. -/
def firstMaxBy (cost : Scenario → ℚ) (x : Scenario) (xs : List Scenario) : Scenario :=
  xs.foldl (fun acc y => if cost acc < cost y then y else acc) x

/-- Embedding of `simulate_scenarios`.  `forecastTruthy` is the truthiness of the
`forecast_data` argument (`None` and an empty dict are falsy). -/
def simulate_scenarios (current_water_need current_et0 _area : ℚ) (rain_expected : Bool)
    (forecastTruthy : Bool) : ScenarioSet :=
  let s1 :=
    if rain_expected || decide (current_et0 < 2) then ((0 : ℚ), (95 : ℚ))
    else (current_water_need, 75)
  let today : Scenario := { name := "Bugün Sulama", water_used := s1.1
                            sustainability_score := s1.2 }
  let s2 :=
    if forecastTruthy then
      let future_et0 := current_et0 * 0.9
      let future_water := current_water_need * (future_et0 / max current_et0 0.1)
      (future_water, if future_et0 < current_et0 then (85 : ℚ) else 70)
    else (current_water_need * 1.1, 65)
  let delay : Scenario := { name := "Sulamayı Ertelama", water_used := pyRound s2.1 1
                            sustainability_score := s2.2 }
  let water_saving : Scenario := { name := "Su Tasarrufu Modu"
                                   water_used := pyRound (current_water_need * 0.6) 1
                                   sustainability_score := 90 }
  let normal : Scenario := { name := "Normal Mod"
                             water_used := pyRound (current_water_need * 1.2) 1
                             sustainability_score := 60 }
  let best_scenario := firstMinBy (·.water_used) today [delay, water_saving, normal]
  let worst_scenario := firstMaxBy (·.water_used) today [delay, water_saving, normal]
  { today, delay, water_saving, normal
    best_scenario := best_scenario.name
    worst_scenario := worst_scenario.name
    water_difference := pyRound (worst_scenario.water_used - best_scenario.water_used) 1
    recommended_scenario := today.name }

/-! ### RegionalDatasetFuser (src/utils.py, find_region_in_dataset) -/

/-- One row of a regional dataset, with the columns the matcher reads.
`region_name = Option.none` models a NaN cell (`na=False` treats it as no match). -/
structure RegionRow where
  region_name : Option String
  lat : ℚ
  lon : ℚ
deriving Repr, DecidableEq

/-- A regional dataset: which columns exist, and the rows in order. -/
structure RegionDataFrame where
  has_region_name : Bool
  has_latlon : Bool
  rows : List RegionRow
deriving Repr, DecidableEq

/-- Substring containment on character lists (needle occurs contiguously in hay). -/
def charsContain (hay needle : List Char) : Bool :=
  if needle.isPrefixOf hay then true
  else
    match hay with
    | [] => needle.isEmpty
    | _ :: t => charsContain t needle

/-- Case-insensitive (ASCII) substring match, the model of
`row.lower().contains(name.lower())`.  The source uses pandas `str.contains`,
whose default regex interpretation coincides with substring search for
metacharacter-free names. -/
def nameMatches (row : Option String) (name : String) : Bool :=
  match row with
  | Option.some s => charsContain s.toLower.data name.toLower.data
  | Option.none => false

/-- Squared lat/lon distance of a row from the query.  The source computes the
square root of this quantity as the sort key; the induced ordering is identical. -/
def rowSqDist (lat lon : ℚ) (r : RegionRow) : ℚ :=
  (r.lat - lat) ^ 2 + (r.lon - lon) ^ 2

/-- First row attaining the minimal distance, scanning in order: the model of
pandas `nsmallest(1, "_distance").iloc[0]` (ties keep the first occurrence). -/
def firstMinRow (lat lon : ℚ) (x : RegionRow) (xs : List RegionRow) : RegionRow :=
  xs.foldl (fun acc y => if rowSqDist lat lon y < rowSqDist lat lon acc then y else acc) x

/-- Rows passing the per-axis tolerance filter
`(abs(df.lat - lat) <= tol) & (abs(df.lon - lon) <= tol)`. -/
def toleranceRows (df : RegionDataFrame) (lat lon tol : ℚ) : List RegionRow :=
  df.rows.filter fun r => decide (|r.lat - lat| ≤ tol) && decide (|r.lon - lon| ≤ tol)

/-- Truthiness of the `region_name` argument (`None` and `""` are falsy). -/
def nameSuppliedB (region_name : Option String) : Bool :=
  match region_name with
  | Option.some rn => decide (rn ≠ "")
  | Option.none => false

/-- The region-name matching stage: first row whose lowered name contains the
lowered query name, attempted only when a name is supplied and the column exists. -/
def nameHitOpt (df : RegionDataFrame) (region_name : Option String) : Option RegionRow :=
  if nameSuppliedB region_name && df.has_region_name then
    df.rows.find? fun r => nameMatches r.region_name (region_name.getD "")
  else Option.none

/-- Embedding of `find_region_in_dataset`. -/
def find_region_in_dataset (df : Option RegionDataFrame) (lat lon : ℚ)
    (region_name : Option String) (tolerance : ℚ) : Option RegionRow :=
  match df with
  | Option.none => Option.none
  | Option.some df =>
    if df.rows.isEmpty then Option.none
    else
      match nameHitOpt df region_name with
      | Option.some r => Option.some r
      | Option.none =>
        if df.has_latlon then
          match toleranceRows df lat lon tolerance with
          | [] => Option.none
          | r :: rest => Option.some (firstMinRow lat lon r rest)
        else Option.none

/-! ### A model of parsed JSON / Python values and of the exceptions the
resolvers can raise.  Numbers are exact rationals. -/

/-- A Python value as it appears after `json.load`: `None`, bool, number, string,
list, or dict with string keys. -/
inductive PyVal where
  | none : PyVal
  | bool (b : Bool) : PyVal
  | num (q : ℚ) : PyVal
  | str (s : String) : PyVal
  | list (xs : List PyVal) : PyVal
  | dict (kvs : List (String × PyVal)) : PyVal
deriving Repr

/-- Test for `v is None`. -/
def isNone : PyVal → Bool
  | PyVal.none => true
  | _ => false

/-- The Python exceptions the embedded code can raise. -/
inductive PyExc where
  | attributeError : PyExc
  | indexError : PyExc
  | keyError : PyExc
  | typeError : PyExc
  | valueError : PyExc
deriving Repr, DecidableEq

/-- Python truthiness. -/
def truthy : PyVal → Bool
  | PyVal.none => false
  | PyVal.bool b => b
  | PyVal.num q => decide (q ≠ 0)
  | PyVal.str s => decide (s ≠ "")
  | PyVal.list xs => !xs.isEmpty
  | PyVal.dict kvs => !kvs.isEmpty

/-- Dict lookup by key (first binding wins; the datasets carry no duplicate keys). -/
def dictLookup (kvs : List (String × PyVal)) (k : String) : Option PyVal :=
  (kvs.find? fun kv => kv.1 == k).map (·.2)

/-- Model of `v.get(k)` — dict method access: `None` default on a dict, `AttributeError`
on anything else. -/
def pyAttrGet (v : PyVal) (k : String) : Except PyExc PyVal :=
  match v with
  | PyVal.dict kvs => Except.ok ((dictLookup kvs k).getD PyVal.none)
  | _ => Except.error PyExc.attributeError

/-- Model of `v[k]` with a string key: `KeyError` when absent, `TypeError` on non-dicts. -/
def pySubscrS (v : PyVal) (k : String) : Except PyExc PyVal :=
  match v with
  | PyVal.dict kvs =>
    match dictLookup kvs k with
    | Option.some x => Except.ok x
    | Option.none => Except.error PyExc.keyError
  | _ => Except.error PyExc.typeError

/-- Model of `v[i]` with an integer index: lists and strings index positionally
(`IndexError` out of range), dicts raise `KeyError` (no integer keys in this
model), everything else `TypeError`. -/
def pyIndex (v : PyVal) (i : ℕ) : Except PyExc PyVal :=
  match v with
  | PyVal.list xs =>
    match xs.get? i with
    | Option.some x => Except.ok x
    | Option.none => Except.error PyExc.indexError
  | PyVal.str s =>
    match s.data.get? i with
    | Option.some c => Except.ok (PyVal.str (String.mk [c]))
    | Option.none => Except.error PyExc.indexError
  | PyVal.dict _ => Except.error PyExc.keyError
  | _ => Except.error PyExc.typeError

/-- Model of `for x in v`: lists yield elements, strings yield one-character strings,
dicts yield their keys; other values raise `TypeError`. -/
def pyIter (v : PyVal) : Except PyExc (List PyVal) :=
  match v with
  | PyVal.list xs => Except.ok xs
  | PyVal.str s => Except.ok (s.data.map fun c => PyVal.str (String.mk [c]))
  | PyVal.dict kvs => Except.ok (kvs.map fun kv => PyVal.str kv.1)
  | _ => Except.error PyExc.typeError

/-- Numeric coercion inside arithmetic (`float - v`): numbers and bools work,
everything else raises `TypeError`. -/
def pyToNum (v : PyVal) : Except PyExc ℚ :=
  match v with
  | PyVal.num q => Except.ok q
  | PyVal.bool b => Except.ok (if b then 1 else 0)
  | _ => Except.error PyExc.typeError

/-- Value of a list of decimal digit characters. -/
def digitsToNat (cs : List Char) : ℕ :=
  cs.foldl (fun acc c => acc * 10 + (c.toNat - 48)) 0

/-- Parse of a plain decimal literal (optional surrounding spaces, optional sign,
digits with at most one point), the model of the Python `float(str)` on the string
shapes the datasets can carry; exponent and inf/nan forms are not modelled. -/
def parsePyFloatLiteral (s : String) : Option ℚ :=
  let cs := ((s.data.dropWhile (· = ' ')).reverse.dropWhile (· = ' ')).reverse
  let signed : ℚ × List Char :=
    match cs with
    | '+' :: t => (1, t)
    | '-' :: t => (-1, t)
    | _ => (1, cs)
  let body := signed.2
  let intPart := body.takeWhile (· ≠ '.')
  let rest := body.dropWhile (· ≠ '.')
  let fracPart := rest.drop 1
  if intPart.all Char.isDigit && fracPart.all Char.isDigit &&
      (!intPart.isEmpty || !fracPart.isEmpty) then
    Option.some (signed.1 *
      ((digitsToNat intPart : ℚ) + (digitsToNat fracPart : ℚ) / 10 ^ fracPart.length))
  else Option.none

/-- Model of `float(v)`: numbers pass through, bools become 0/1, strings are parsed
(`ValueError` on failure), everything else raises `TypeError`. -/
def pyFloat (v : PyVal) : Except PyExc ℚ :=
  match v with
  | PyVal.num q => Except.ok q
  | PyVal.bool b => Except.ok (if b then 1 else 0)
  | PyVal.str s =>
    match parsePyFloatLiteral s with
    | Option.some q => Except.ok q
    | Option.none => Except.error PyExc.valueError
  | _ => Except.error PyExc.typeError

/-- Python `str(v)` as far as the claims exercise it.  Rendering of numbers and
containers is a convention of the embedding (no claim depends on it). -/
def pyStr : PyVal → String
  | PyVal.str s => s
  | PyVal.bool true => "True"
  | PyVal.bool false => "False"
  | PyVal.none => "None"
  | PyVal.num q => if q.den = 1 then toString q.num ++ ".0" else toString q
  | PyVal.list _ => "[list]"
  | PyVal.dict _ => "[dict]"

/-- Fixed two-decimal rendering of a rational, the model of `f"{spi:.2f}"`. -/
def fmtFixed2 (q : ℚ) : String :=
  let n := roundHalfEven (q * 100)
  let sgn := if n < 0 then "-" else ""
  let m := n.natAbs
  let frac := m % 100
  sgn ++ toString (m / 100) ++ "." ++ (if frac < 10 then "0" else "") ++ toString frac

/-! ### Drought resolver (src/utils.py, get_drought_risk_from_geojson) -/

/-- The dict returned by the drought resolver. -/
structure DroughtRecord where
  spi_value : Option ℚ
  spi_label : String
  drought_category : String
  risk_label : String
  data_available : Bool
  source : String
deriving Repr, DecidableEq

/-- The structured "unavailable" drought record. -/
def droughtPlaceholder : DroughtRecord :=
  { spi_value := Option.none, spi_label := "—", drought_category := "Low"
    risk_label := "Düşük", data_available := false, source := "Dataset unavailable" }

/-- Embedding of `_spi_to_drought_category`. -/
def _spi_to_drought_category (spi : ℚ) : String :=
  if spi ≥ -0.5 then "Low"
  else if spi ≥ -1 then "Medium"
  else if spi ≥ -1.5 then "High"
  else "Extreme"

/-- The `risk_labels` mapping, with the source fallback `.get(category, "Düşük")`. -/
def riskLabel (category : String) : String :=
  (([("Low", "Düşük"), ("Medium", "Orta"), ("High", "Yüksek"), ("Extreme", "Ekstrem")].find?
    fun kv => kv.1 == category).map (·.2)).getD "Düşük"

/-- Embedding of `_load_drought_geojson` on the file content: a missing file,
a JSON-level parse failure, or a parsed value that is not an object all yield the
empty dict. -/
def _load_drought_geojson (content : Option PyVal) : PyVal :=
  match content with
  | Option.some (PyVal.dict kvs) => PyVal.dict kvs
  | _ => PyVal.dict []

/-- Embedding of `_load_watershed_geojson`; identical fallback behaviour. -/
def _load_watershed_geojson (content : Option PyVal) : PyVal :=
  match content with
  | Option.some (PyVal.dict kvs) => PyVal.dict kvs
  | _ => PyVal.dict []

/-- The filter predicate of the list comprehension
`[f for f in geo["features"] if f.get("geometry") and f["geometry"].get("coordinates")]`. -/
def droughtFeatureKeep (f : PyVal) : Except PyExc Bool := do
  let g ← pyAttrGet f "geometry"
  if truthy g then do
    let g2 ← pySubscrS f "geometry"
    let c ← pyAttrGet g2 "coordinates"
    pure (truthy c)
  else
    pure false

/-- Effectful filter, visiting elements in order (first exception wins). -/
def exceptFilter (p : PyVal → Except PyExc Bool) : List PyVal → Except PyExc (List PyVal)
  | [] => Except.ok []
  | x :: xs => do
    let b ← p x
    let r ← exceptFilter p xs
    pure (if b then x :: r else r)

/-- One step of the nearest-feature scan:
`plon, plat = coords[0], coords[1]; d = (lat-plat)**2 + (lon-plon)**2`. -/
def droughtStep (lat lon : ℚ) (f : PyVal) : Except PyExc ℚ := do
  let g ← pySubscrS f "geometry"
  let coords ← pySubscrS g "coordinates"
  let p0 ← pyIndex coords 0
  let p1 ← pyIndex coords 1
  let plat ← pyToNum p1
  let plon ← pyToNum p0
  pure ((lat - plat) ^ 2 + (lon - plon) ^ 2)

/-- The `best`/`best_dist` accumulation loop (strict `<`, so the first feature
attaining the minimum distance is kept). -/
def droughtBestLoop (lat lon : ℚ) :
    List PyVal → Option (PyVal × ℚ) → Except PyExc (Option (PyVal × ℚ))
  | [], acc => Except.ok acc
  | f :: rest, acc => do
    let d ← droughtStep lat lon f
    let acc2 :=
      match acc with
      | Option.none => Option.some (f, d)
      | Option.some (g, dg) => if d < dg then Option.some (f, d) else Option.some (g, dg)
    droughtBestLoop lat lon rest acc2

/-- The SPI field priority chain of the source:
`props.get("last6month")`, falling back to `last3month`, then `last1month`. -/
def droughtSpiChain (props : PyVal) : Except PyExc PyVal := do
  let spi1 ← pyAttrGet props "last6month"
  let spi2 ← if isNone spi1 then pyAttrGet props "last3month" else pure spi1
  if isNone spi2 then pyAttrGet props "last1month" else pure spi2

/-- Extraction of the record from the nearest feature: `properties or {}`, the
6/3/1-month field chain, the guarded `float(...)` coercion, and the category map.
The `try/except (TypeError, ValueError)` around `float` catches exactly the
exceptions `pyFloat` can produce. -/
def droughtExtract (best : PyVal) : Except PyExc DroughtRecord := do
  let props0 ← pyAttrGet best "properties"
  let props := if truthy props0 then props0 else PyVal.dict []
  let spi ← droughtSpiChain props
  if isNone spi then
    pure droughtPlaceholder
  else
    match pyFloat spi with
    | Except.error _ => pure droughtPlaceholder
    | Except.ok q =>
      pure { spi_value := Option.some (pyRound q 2), spi_label := fmtFixed2 q
             drought_category := _spi_to_drought_category q
             risk_label := riskLabel (_spi_to_drought_category q)
             data_available := true, source := "SPI GeoJSON" }

/-- Embedding of `get_drought_risk_from_geojson`, applied to the loaded dataset. -/
def get_drought_risk_from_geojson (lat lon : ℚ) (geo : PyVal) :
    Except PyExc DroughtRecord := do
  if ¬ truthy geo then pure droughtPlaceholder
  else do
    let fv ← pyAttrGet geo "features"
    if ¬ truthy fv then pure droughtPlaceholder
    else do
      let fl ← pySubscrS geo "features"
      let items ← pyIter fl
      let features ← exceptFilter droughtFeatureKeep items
      if features.isEmpty then pure droughtPlaceholder
      else do
        let best ← droughtBestLoop lat lon features Option.none
        match best with
        | Option.none => pure droughtPlaceholder
        | Option.some (b, _) => droughtExtract b

/-! ### Watershed resolver (src/utils.py, get_watershed_for_location) -/

/-- The dict returned by the watershed resolver.  `basin_name` and `basin_id` come
straight out of the properties dict (so can be arbitrary values); the stress label
is always a string. -/
structure WatershedRecord where
  basin_name : PyVal
  basin_id : PyVal
  water_stress_label : String
  data_available : Bool
  source : String
deriving Repr

/-- The structured "unavailable" watershed record. -/
def watershedPlaceholder : WatershedRecord :=
  { basin_name := PyVal.str "—", basin_id := PyVal.none, water_stress_label := "—"
    data_available := false, source := "Dataset unavailable" }

/-- The `stress_map` of the source. -/
def stressLabelMap : List (String × String) :=
  [("low", "Düşük"), ("medium", "Orta"), ("high", "Yüksek"),
   ("düşük", "Düşük"), ("orta", "Orta"), ("yüksek", "Yüksek")]

/-- The property extraction of a containing watershed feature, on `properties or {}`. -/
def watershedExtract (props : PyVal) : Except PyExc WatershedRecord := do
  let bn ← pyAttrGet props "havza_ad"
  let basin_name := if truthy bn then bn else PyVal.str "—"
  let bid1 ← pyAttrGet props "havza_no"
  let basin_id ←
    if truthy bid1 then pure bid1
    else do
      let h ← pyAttrGet props "h_no"
      pure (if !isNone h then PyVal.str (pyStr h) else PyVal.none)
  let ws1 ← pyAttrGet props "water_stress"
  let ws ← if truthy ws1 then pure ws1 else pyAttrGet props "su_stresi"
  let label :=
    if !isNone ws then
      ((stressLabelMap.find? fun kv => kv.1 == (pyStr ws).toLower).map (·.2)).getD
        (pyStr ws)
    else "Veri yok"
  pure { basin_name := basin_name, basin_id := basin_id, water_stress_label := label
         data_available := true, source := "Havza GeoJSON" }

/-- The body of the per-feature `try:` block.  `containsP` abstracts the shapely
geometry evaluation `shape(geom_data)` + `is_valid and not is_empty and
contains(Point(lon, lat))`; any exception it raises is caught by the source
`except Exception: continue`, as is any exception from the property extraction. -/
def watershedTryBody (lat lon : ℚ)
    (containsP : PyVal → ℚ → ℚ → Except PyExc Bool) (feat gd : PyVal) :
    Except PyExc (Option WatershedRecord) := do
  let c ← containsP gd lon lat
  if ¬ c then pure Option.none
  else do
    let props0 ← pyAttrGet feat "properties"
    let props := if truthy props0 then props0 else PyVal.dict []
    let r ← watershedExtract props
    pure (Option.some r)

/-- The feature loop of `get_watershed_for_location`: the geometry truthiness
pre-checks run outside the `try:` (and can raise); exceptions in the body are
swallowed and scanning continues. -/
def watershedLoop (lat lon : ℚ) (containsP : PyVal → ℚ → ℚ → Except PyExc Bool) :
    List PyVal → Except PyExc WatershedRecord
  | [] => Except.ok watershedPlaceholder
  | feat :: rest => do
    let gd ← pyAttrGet feat "geometry"
    let skip ←
      if ¬ truthy gd then pure true
      else do
        let c ← pyAttrGet gd "coordinates"
        pure (!truthy c)
    if skip then watershedLoop lat lon containsP rest
    else
      match watershedTryBody lat lon containsP feat gd with
      | Except.error _ => watershedLoop lat lon containsP rest
      | Except.ok Option.none => watershedLoop lat lon containsP rest
      | Except.ok (Option.some r) => Except.ok r

/-- Embedding of `get_watershed_for_location`, applied to the loaded dataset.
The shapely import is modelled as succeeding (its `ImportError` fallback path is
not exercised by any claim). -/
def get_watershed_for_location (lat lon : ℚ)
    (containsP : PyVal → ℚ → ℚ → Except PyExc Bool) (geo : PyVal) :
    Except PyExc WatershedRecord := do
  if ¬ truthy geo then pure watershedPlaceholder
  else do
    let fv ← pyAttrGet geo "features"
    if ¬ truthy fv then pure watershedPlaceholder
    else do
      let fl ← pySubscrS geo "features"
      let feats ← pyIter fl
      watershedLoop lat lon containsP feats

/-! ### Well-formedness of a parsed dataset, and pure counterparts of the
resolver pipelines (used to state and prove the claims; the well-formedness
predicates delimit exactly the feature shapes on which the source cannot raise). -/

/-- Pure dict lookup with `None` default (the no-exception reading of `.get`). -/
def pget (v : PyVal) (k : String) : PyVal :=
  match v with
  | PyVal.dict kvs => (dictLookup kvs k).getD PyVal.none
  | _ => PyVal.none

/-- Numeric value of a number or bool (only used on values `isNumLike` accepts). -/
def toNumD : PyVal → ℚ
  | PyVal.num q => q
  | PyVal.bool b => if b then 1 else 0
  | _ => 0

/-- Values accepted by float subtraction. -/
def isNumLike : PyVal → Bool
  | PyVal.num _ => true
  | PyVal.bool _ => true
  | _ => false

/-- A truthy value of this shape must be a dict (so `.get` cannot raise on it). -/
def truthyImpliesDict (v : PyVal) : Bool :=
  if truthy v then
    match v with
    | PyVal.dict _ => true
    | _ => false
  else true

/-- A truthy coordinates value must be a list with at least two numeric entries. -/
def coordsOK (c : PyVal) : Bool :=
  if truthy c then
    match c with
    | PyVal.list cl =>
      decide (2 ≤ cl.length) && isNumLike (cl.getD 0 PyVal.none) &&
        isNumLike (cl.getD 1 PyVal.none)
    | _ => false
  else true

/-- A truthy geometry value must be a dict whose coordinates are well shaped. -/
def geomOK (g : PyVal) : Bool :=
  if truthy g then
    match g with
    | PyVal.dict gk => coordsOK ((dictLookup gk "coordinates").getD PyVal.none)
    | _ => false
  else true

/-- Well-formed drought feature: a record whose geometry and properties have the
shapes on which `get_drought_risk_from_geojson` cannot raise. -/
def droughtFeatWF (f : PyVal) : Bool :=
  match f with
  | PyVal.dict kvs =>
    truthyImpliesDict ((dictLookup kvs "properties").getD PyVal.none) &&
      geomOK ((dictLookup kvs "geometry").getD PyVal.none)
  | _ => false

/-- The pure reading of the feature filter: truthy geometry and truthy coordinates. -/
def droughtCandidate (f : PyVal) : Bool :=
  match f with
  | PyVal.dict kvs =>
    let g := (dictLookup kvs "geometry").getD PyVal.none
    truthy g &&
      (match g with
       | PyVal.dict gk => truthy ((dictLookup gk "coordinates").getD PyVal.none)
       | _ => false)
  | _ => false

/-- Well-formed drought dataset: the features value, when truthy, is a list of
well-formed features. -/
def droughtGeoWF (geo : PyVal) : Bool :=
  match geo with
  | PyVal.dict kvs =>
    let fv := (dictLookup kvs "features").getD PyVal.none
    !truthy fv ||
      (match fv with
       | PyVal.list fs => fs.all droughtFeatWF
       | _ => false)
  | _ => false

/-- The coordinate list of a feature (empty when the shape does not match). -/
def featCoords (f : PyVal) : List PyVal :=
  match pget (pget f "geometry") "coordinates" with
  | PyVal.list cl => cl
  | _ => []

/-- The `i`-th coordinate of a feature as a number. -/
def featCoord (f : PyVal) (i : ℕ) : ℚ := toNumD ((featCoords f).getD i PyVal.none)

/-- Squared flat-plane distance of the query from the point of a feature:
`(lat - plat)**2 + (lon - plon)**2` with `plon, plat = coords[0], coords[1]`. -/
def featSqDist (lat lon : ℚ) (f : PyVal) : ℚ :=
  (lat - featCoord f 1) ^ 2 + (lon - featCoord f 0) ^ 2

/-- The value `properties or \x7b\x7d` of a feature. -/
def propsOrEmpty (f : PyVal) : PyVal :=
  let p := pget f "properties"
  if truthy p then p else PyVal.dict []

/-- The pure reading of the SPI priority chain on a dict of properties. -/
def firstSpiOf (props : PyVal) : PyVal :=
  let v1 := pget props "last6month"
  let v2 := if isNone v1 then pget props "last3month" else v1
  if isNone v2 then pget props "last1month" else v2

/-- The SPI value chosen by the priority chain last6month → last3month → last1month. -/
def firstSpiField (f : PyVal) : PyVal := firstSpiOf (propsOrEmpty f)

/-- The record the resolver builds from the nearest feature. -/
def droughtRecordOf (f : PyVal) : DroughtRecord :=
  if isNone (firstSpiField f) then droughtPlaceholder
  else
    match pyFloat (firstSpiField f) with
    | Except.error _ => droughtPlaceholder
    | Except.ok q =>
      { spi_value := Option.some (pyRound q 2), spi_label := fmtFixed2 q
        drought_category := _spi_to_drought_category q
        risk_label := riskLabel (_spi_to_drought_category q)
        data_available := true, source := "SPI GeoJSON" }

/-- The pure accumulation underlying the nearest-feature loop. -/
def foldMin {α : Type} (cost : α → ℚ) : List α → Option (α × ℚ) → Option (α × ℚ)
  | [], acc => acc
  | x :: xs, acc =>
    foldMin cost xs
      (match acc with
       | Option.none => Option.some (x, cost x)
       | Option.some (g, dg) =>
         if cost x < dg then Option.some (x, cost x) else Option.some (g, dg))

/-- Well-formed watershed feature: a record whose truthy geometry is a dict
(the only shape constraint the watershed loop needs to not raise, since the whole
per-feature body runs inside `try/except`). -/
def watershedFeatWF (f : PyVal) : Bool :=
  match f with
  | PyVal.dict kvs => truthyImpliesDict ((dictLookup kvs "geometry").getD PyVal.none)
  | _ => false

/-- Well-formed watershed dataset. -/
def watershedGeoWF (geo : PyVal) : Bool :=
  match geo with
  | PyVal.dict kvs =>
    let fv := (dictLookup kvs "features").getD PyVal.none
    !truthy fv ||
      (match fv with
       | PyVal.list fs => fs.all watershedFeatWF
       | _ => false)
  | _ => false

/-- A watershed feature that is an actual test candidate: a record with a truthy
dict geometry carrying truthy coordinates, and properties that are a dict when
truthy (so the property extraction inside the `try:` cannot raise). -/
def watershedCandidateWF (f : PyVal) : Bool :=
  match f with
  | PyVal.dict kvs =>
    (match (dictLookup kvs "geometry").getD PyVal.none with
     | PyVal.dict gk =>
       !(gk.isEmpty) && truthy ((dictLookup gk "coordinates").getD PyVal.none)
     | _ => false) &&
      truthyImpliesDict ((dictLookup kvs "properties").getD PyVal.none)
  | _ => false

/-- The geometry value of a feature. -/
def featGeom (f : PyVal) : PyVal := pget f "geometry"

/-- Pure reading of the watershed property extraction on a dict of properties. -/
def watershedRecordOfProps (props : PyVal) : WatershedRecord :=
  { basin_name := if truthy (pget props "havza_ad") then pget props "havza_ad"
      else PyVal.str "—"
    basin_id :=
      if truthy (pget props "havza_no") then pget props "havza_no"
      else if !isNone (pget props "h_no") then PyVal.str (pyStr (pget props "h_no"))
      else PyVal.none
    water_stress_label :=
      let ws := if truthy (pget props "water_stress") then pget props "water_stress"
        else pget props "su_stresi"
      if !isNone ws then
        ((stressLabelMap.find? fun kv => kv.1 == (pyStr ws).toLower).map (·.2)).getD
          (pyStr ws)
      else "Veri yok"
    data_available := true, source := "Havza GeoJSON" }

/-- The record the watershed resolver builds from a containing feature. -/
def watershedRecordOf (f : PyVal) : WatershedRecord :=
  watershedRecordOfProps (propsOrEmpty f)

/-! ### Bridge lemmas: on well-formed data the effectful pipelines compute
their pure counterparts. -/

@[simp] theorem except_bind_ok {α β ε : Type} (a : α) (f : α → Except ε β) :
    (Except.ok a >>= f) = f a := rfl

@[simp] theorem except_bind_error {α β ε : Type} (e : ε) (f : α → Except ε β) :
    ((Except.error e : Except ε α) >>= f) = Except.error e := rfl

@[simp] theorem except_pure_eq {α ε : Type} (a : α) :
    (pure a : Except ε α) = Except.ok a := rfl

theorem truthy_getD_lookup (kvs : List (String × PyVal)) (k : String)
    (h : truthy ((dictLookup kvs k).getD PyVal.none) = true) :
    dictLookup kvs k = Option.some ((dictLookup kvs k).getD PyVal.none) := by
  cases hl : dictLookup kvs k with
  | none => rw [hl] at h; simp [truthy] at h
  | some v => simp [hl]

theorem droughtFeatWF_dict (f : PyVal) (h : droughtFeatWF f = true) :
    ∃ kvs, f = PyVal.dict kvs := by
  cases f <;> simp_all [droughtFeatWF]

theorem geomOK_truthy (g : PyVal) (h : geomOK g = true) (ht : truthy g = true) :
    ∃ gk, g = PyVal.dict gk ∧
      coordsOK ((dictLookup gk "coordinates").getD PyVal.none) = true := by
  unfold geomOK at h
  rw [if_pos ht] at h
  cases g <;> simp_all

theorem coordsOK_truthy (c : PyVal) (h : coordsOK c = true) (ht : truthy c = true) :
    ∃ cl, c = PyVal.list cl ∧ 2 ≤ cl.length ∧
      isNumLike (cl.getD 0 PyVal.none) = true ∧ isNumLike (cl.getD 1 PyVal.none) = true := by
  unfold coordsOK at h
  rw [if_pos ht] at h
  cases c <;> simp_all

theorem pyToNum_numLike (v : PyVal) (hv : isNumLike v = true) :
    pyToNum v = Except.ok (toNumD v) := by
  cases v <;> simp [isNumLike] at hv <;> simp [pyToNum, toNumD]

theorem getq_of_lt (cl : List PyVal) (i : ℕ) (hlt : i < cl.length) :
    cl.get? i = Option.some (cl.getD i PyVal.none) := by
  rw [List.get?_eq_getElem?, List.getD_eq_getElem?_getD, List.getElem?_eq_getElem hlt]
  rfl

theorem droughtFeatureKeep_wf (f : PyVal) (h : droughtFeatWF f = true) :
    droughtFeatureKeep f = Except.ok (droughtCandidate f) := by
  obtain ⟨kvs, rfl⟩ := droughtFeatWF_dict f h
  unfold droughtFeatWF at h
  rw [Bool.and_eq_true] at h
  obtain ⟨_, hg⟩ := h
  by_cases ht : truthy ((dictLookup kvs "geometry").getD PyVal.none) = true
  · have hlk := truthy_getD_lookup kvs "geometry" ht
    obtain ⟨gk, hgd, _⟩ := geomOK_truthy _ hg ht
    rw [hgd] at hlk ht
    simp [droughtFeatureKeep, droughtCandidate, pyAttrGet, pySubscrS, hlk, hgd, ht]
  · rw [Bool.not_eq_true] at ht
    simp [droughtFeatureKeep, droughtCandidate, pyAttrGet, ht]

theorem droughtStep_wf (lat lon : ℚ) (f : PyVal) (hwf : droughtFeatWF f = true)
    (hc : droughtCandidate f = true) :
    droughtStep lat lon f = Except.ok (featSqDist lat lon f) := by
  obtain ⟨kvs, rfl⟩ := droughtFeatWF_dict f hwf
  unfold droughtFeatWF at hwf
  rw [Bool.and_eq_true] at hwf
  obtain ⟨_, hg⟩ := hwf
  unfold droughtCandidate at hc
  rw [Bool.and_eq_true] at hc
  obtain ⟨hgt, hcc⟩ := hc
  have hlk := truthy_getD_lookup kvs "geometry" hgt
  obtain ⟨gk, hgd, hco⟩ := geomOK_truthy _ hg hgt
  rw [hgd] at hlk
  have hct : truthy ((dictLookup gk "coordinates").getD PyVal.none) = true := by
    rw [hgd] at hcc
    simpa using hcc
  have hlk2 := truthy_getD_lookup gk "coordinates" hct
  obtain ⟨cl, hcd, hlen, h0, h1⟩ := coordsOK_truthy _ hco hct
  rw [hcd] at hlk2
  have hg0 := getq_of_lt cl 0 (by omega)
  have hg1 := getq_of_lt cl 1 (by omega)
  unfold droughtStep
  rw [show pySubscrS (PyVal.dict kvs) "geometry" = Except.ok (PyVal.dict gk) by
    simp [pySubscrS, hlk]]
  rw [except_bind_ok]
  rw [show pySubscrS (PyVal.dict gk) "coordinates" = Except.ok (PyVal.list cl) by
    simp [pySubscrS, hlk2]]
  rw [except_bind_ok]
  rw [show pyIndex (PyVal.list cl) 0 = Except.ok (cl.getD 0 PyVal.none) by
    simp [pyIndex, hg0, List.getElem?_eq_getElem (show 0 < cl.length by omega)]]
  rw [except_bind_ok]
  rw [show pyIndex (PyVal.list cl) 1 = Except.ok (cl.getD 1 PyVal.none) by
    simp [pyIndex, hg1, List.getElem?_eq_getElem (show 1 < cl.length by omega)]]
  rw [except_bind_ok]
  rw [pyToNum_numLike _ h1]
  rw [except_bind_ok]
  rw [pyToNum_numLike _ h0]
  rw [except_bind_ok]
  unfold featSqDist featCoord featCoords
  simp [pget, hlk, hlk2, hgd, hcd]

theorem exceptFilter_wf (l : List PyVal) (h : ∀ f ∈ l, droughtFeatWF f = true) :
    exceptFilter droughtFeatureKeep l = Except.ok (l.filter droughtCandidate) := by
  induction l with
  | nil => rfl
  | cons x xs ih =>
    have hx := h x (List.mem_cons_self x xs)
    have hxs : ∀ f ∈ xs, droughtFeatWF f = true := fun f hf => h f (List.mem_cons_of_mem x hf)
    unfold exceptFilter
    rw [droughtFeatureKeep_wf x hx, except_bind_ok, ih hxs, except_bind_ok]
    by_cases hc : droughtCandidate x = true
    · simp [List.filter_cons, hc]
    · rw [Bool.not_eq_true] at hc
      simp [List.filter_cons, hc]

theorem droughtBestLoop_wf (lat lon : ℚ) (l : List PyVal)
    (h : ∀ f ∈ l, droughtFeatWF f = true ∧ droughtCandidate f = true) :
    ∀ acc, droughtBestLoop lat lon l acc =
      Except.ok (foldMin (featSqDist lat lon) l acc) := by
  induction l with
  | nil => intro acc; rfl
  | cons x xs ih =>
    intro acc
    have hx := h x (List.mem_cons_self x xs)
    have hxs : ∀ f ∈ xs, droughtFeatWF f = true ∧ droughtCandidate f = true :=
      fun f hf => h f (List.mem_cons_of_mem x hf)
    unfold droughtBestLoop
    rw [droughtStep_wf lat lon x hx.1 hx.2, except_bind_ok]
    rw [ih hxs]
    cases acc with
    | none => simp [foldMin]
    | some p => cases p; simp [foldMin]

theorem foldMin_acc_spec {α : Type} (cost : α → ℚ) (l : List α) :
    ∀ x : α, ∃ b, foldMin cost l (Option.some (x, cost x)) = Option.some (b, cost b) ∧
      (b = x ∨ b ∈ l) ∧ cost b ≤ cost x ∧ ∀ y ∈ l, cost b ≤ cost y := by
  induction l with
  | nil => intro x; exact ⟨x, rfl, Or.inl rfl, le_refl _, by simp⟩
  | cons z zs ih =>
    intro x
    simp only [foldMin]
    by_cases hz : cost z < cost x
    · rw [if_pos hz]
      obtain ⟨b, hfold, hmem, hle, hall⟩ := ih z
      refine ⟨b, hfold, ?_, ?_, ?_⟩
      · rcases hmem with h | h
        · exact Or.inr (h ▸ List.mem_cons_self z zs)
        · exact Or.inr (List.mem_cons_of_mem z h)
      · exact le_trans hle (le_of_lt hz)
      · intro y hy
        rcases List.mem_cons.mp hy with rfl | hy
        · exact hle
        · exact hall y hy
    · rw [if_neg hz]
      obtain ⟨b, hfold, hmem, hle, hall⟩ := ih x
      refine ⟨b, hfold, ?_, hle, ?_⟩
      · rcases hmem with h | h
        · exact Or.inl h
        · exact Or.inr (List.mem_cons_of_mem z h)
      · intro y hy
        rcases List.mem_cons.mp hy with rfl | hy
        · exact le_trans hle (le_of_not_lt hz)
        · exact hall y hy

theorem foldMin_none_spec {α : Type} (cost : α → ℚ) (x : α) (xs : List α) :
    ∃ b, foldMin cost (x :: xs) Option.none = Option.some (b, cost b) ∧
      b ∈ x :: xs ∧ ∀ y ∈ x :: xs, cost b ≤ cost y := by
  have hstep : foldMin cost (x :: xs) Option.none =
      foldMin cost xs (Option.some (x, cost x)) := rfl
  obtain ⟨b, hfold, hmem, hle, hall⟩ := foldMin_acc_spec cost xs x
  refine ⟨b, hstep ▸ hfold, ?_, ?_⟩
  · rcases hmem with rfl | h
    · exact List.mem_cons_self b xs
    · exact List.mem_cons_of_mem x h
  · intro y hy
    rcases List.mem_cons.mp hy with rfl | hy
    · exact hle
    · exact hall y hy

theorem droughtSpiChain_dict (pk : List (String × PyVal)) :
    droughtSpiChain (PyVal.dict pk) = Except.ok (firstSpiOf (PyVal.dict pk)) := by
  simp only [droughtSpiChain, firstSpiOf, pyAttrGet, except_bind_ok, pget]
  split_ifs <;> simp_all [except_pure_eq, except_bind_ok]

theorem propsOrEmpty_of_wf (kvs : List (String × PyVal))
    (hp : truthyImpliesDict ((dictLookup kvs "properties").getD PyVal.none) = true) :
    ∃ pk, propsOrEmpty (PyVal.dict kvs) = PyVal.dict pk := by
  unfold propsOrEmpty
  unfold truthyImpliesDict at hp
  by_cases ht : truthy (pget (PyVal.dict kvs) "properties") = true
  · rw [if_pos ht]
    have hp2 : truthy ((dictLookup kvs "properties").getD PyVal.none) = true := ht
    rw [if_pos hp2] at hp
    cases hpv : (dictLookup kvs "properties").getD PyVal.none with
    | dict pk => exact ⟨pk, by simp [pget, hpv]⟩
    | none => rw [hpv] at hp2; simp [truthy] at hp2
    | bool b => rw [hpv] at hp; simp at hp
    | num q => rw [hpv] at hp; simp at hp
    | str s => rw [hpv] at hp; simp at hp
    | list xs => rw [hpv] at hp; simp at hp
  · rw [if_neg ht]
    exact ⟨[], rfl⟩

theorem propsOrEmpty_dict (f : PyVal) (h : droughtFeatWF f = true) :
    ∃ pk, propsOrEmpty f = PyVal.dict pk := by
  obtain ⟨kvs, rfl⟩ := droughtFeatWF_dict f h
  unfold droughtFeatWF at h
  rw [Bool.and_eq_true] at h
  exact propsOrEmpty_of_wf kvs h.1

theorem droughtExtract_wf (f : PyVal) (h : droughtFeatWF f = true) :
    droughtExtract f = Except.ok (droughtRecordOf f) := by
  obtain ⟨pk, hpk⟩ := propsOrEmpty_dict f h
  obtain ⟨kvs, rfl⟩ := droughtFeatWF_dict f h
  have hat : pyAttrGet (PyVal.dict kvs) "properties" =
      Except.ok (pget (PyVal.dict kvs) "properties") := rfl
  simp only [droughtExtract, hat, except_bind_ok]
  have hif : (if truthy (pget (PyVal.dict kvs) "properties") = true
      then pget (PyVal.dict kvs) "properties" else PyVal.dict []) = PyVal.dict pk := hpk
  rw [hif, droughtSpiChain_dict pk, except_bind_ok]
  simp only [droughtRecordOf, firstSpiField, hpk]
  split_ifs with hnone
  · rfl
  · cases pyFloat (firstSpiOf (PyVal.dict pk)) <;> rfl

theorem dictLookup_ne_nil {kvs : List (String × PyVal)} {k : String} {v : PyVal}
    (h : dictLookup kvs k = Option.some v) : kvs ≠ [] := by
  intro hk
  rw [hk] at h
  simp [dictLookup] at h

/-- On a well-formed dataset whose features list is present and non-empty, the
drought resolver computes: filter, nearest-feature fold, record extraction. -/
theorem drought_main_eq (lat lon : ℚ) (kvs : List (String × PyVal)) (fs : List PyVal)
    (hfeat : dictLookup kvs "features" = Option.some (PyVal.list fs))
    (hwf : ∀ f ∈ fs, droughtFeatWF f = true) (hfs : fs ≠ []) :
    get_drought_risk_from_geojson lat lon (PyVal.dict kvs) =
      (match foldMin (featSqDist lat lon) (fs.filter droughtCandidate) Option.none with
       | Option.none => Except.ok droughtPlaceholder
       | Option.some (b, _) => Except.ok (droughtRecordOf b)) := by
  have hkne : kvs ≠ [] := dictLookup_ne_nil hfeat
  have htg : truthy (PyVal.dict kvs) = true := by
    simp [truthy, hkne]
  have htf : truthy (PyVal.list fs) = true := by
    simp [truthy, hfs]
  unfold get_drought_risk_from_geojson
  rw [if_neg (by rw [htg]; simp)]
  rw [show pyAttrGet (PyVal.dict kvs) "features" = Except.ok (PyVal.list fs) by
    simp [pyAttrGet, hfeat]]
  rw [except_bind_ok]
  rw [if_neg (by rw [htf]; simp)]
  rw [show pySubscrS (PyVal.dict kvs) "features" = Except.ok (PyVal.list fs) by
    simp [pySubscrS, hfeat]]
  rw [except_bind_ok]
  rw [show pyIter (PyVal.list fs) = Except.ok fs from rfl]
  rw [except_bind_ok]
  rw [exceptFilter_wf fs hwf, except_bind_ok]
  by_cases hfe : (fs.filter droughtCandidate).isEmpty = true
  · rw [if_pos hfe]
    rw [List.isEmpty_iff] at hfe
    rw [hfe]
    rfl
  · rw [if_neg hfe]
    have hmemwf : ∀ f ∈ fs.filter droughtCandidate,
        droughtFeatWF f = true ∧ droughtCandidate f = true := by
      intro f hf
      rw [List.mem_filter] at hf
      exact ⟨hwf f hf.1, hf.2⟩
    rw [droughtBestLoop_wf lat lon _ hmemwf Option.none, except_bind_ok]
    cases hfl : fs.filter droughtCandidate with
    | nil => rw [hfl] at hfe; simp at hfe
    | cons c rest =>
      obtain ⟨b, hfold, hbmem, _⟩ := foldMin_none_spec (featSqDist lat lon) c rest
      have hbfs : b ∈ fs := by
        have hbf : b ∈ fs.filter droughtCandidate := hfl ▸ hbmem
        rw [List.mem_filter] at hbf
        exact hbf.1
      rw [hfold]
      show droughtExtract b = Except.ok (droughtRecordOf b)
      exact droughtExtract_wf b (hwf b hbfs)

/-- When the SPI chain produces a coercible value, the record carries the rounded
value, the threshold category, and availability. -/
theorem droughtRecordOf_ok (f : PyVal) (q : ℚ)
    (hq : pyFloat (firstSpiField f) = Except.ok q) :
    droughtRecordOf f =
      { spi_value := Option.some (pyRound q 2), spi_label := fmtFixed2 q
        drought_category := _spi_to_drought_category q
        risk_label := riskLabel (_spi_to_drought_category q)
        data_available := true, source := "SPI GeoJSON" } := by
  unfold droughtRecordOf
  have hnn : isNone (firstSpiField f) = false := by
    cases hsf : firstSpiField f <;> simp [isNone]
    · rw [hsf] at hq; simp [pyFloat] at hq
  rw [hnn]
  simp only [Bool.false_eq_true, if_false]
  rw [hq]

/-- When no SPI field is present, or the value fails numeric coercion, the record
is the structured "unavailable" placeholder. -/
theorem droughtRecordOf_unavailable (f : PyVal)
    (h : isNone (firstSpiField f) = true ∨ ∃ e, pyFloat (firstSpiField f) = Except.error e) :
    droughtRecordOf f = droughtPlaceholder := by
  unfold droughtRecordOf
  rcases h with h | ⟨e, h⟩
  · rw [h]
    simp
  · by_cases hnn : isNone (firstSpiField f) = true
    · rw [hnn]; simp
    · have hnn2 : isNone (firstSpiField f) = false := by simpa using hnn
      rw [hnn2]
      simp only [Bool.false_eq_true, if_false]
      rw [h]

/-! ### Watershed bridge lemmas -/

theorem watershedExtract_dict (pk : List (String × PyVal)) :
    watershedExtract (PyVal.dict pk) =
      Except.ok (watershedRecordOfProps (PyVal.dict pk)) := by
  simp only [watershedExtract, watershedRecordOfProps, pyAttrGet, except_bind_ok,
    except_pure_eq, pget]
  split_ifs <;> simp_all [except_pure_eq, except_bind_ok]

theorem watershedTryBody_true (lat lon : ℚ)
    (containsP : PyVal → ℚ → ℚ → Except PyExc Bool) (f : PyVal)
    (hwf : watershedCandidateWF f = true)
    (hc : containsP (featGeom f) lon lat = Except.ok true) :
    watershedTryBody lat lon containsP f (featGeom f) =
      Except.ok (Option.some (watershedRecordOf f)) := by
  obtain ⟨kvs, rfl⟩ : ∃ kvs, f = PyVal.dict kvs := by
    cases f <;> simp_all [watershedCandidateWF]
  have hp : truthyImpliesDict ((dictLookup kvs "properties").getD PyVal.none) = true := by
    unfold watershedCandidateWF at hwf
    rw [Bool.and_eq_true] at hwf
    exact hwf.2
  obtain ⟨pk, hpk⟩ := propsOrEmpty_of_wf kvs hp
  unfold watershedTryBody
  rw [hc, except_bind_ok, if_neg (by simp)]
  rw [show pyAttrGet (PyVal.dict kvs) "properties" =
    Except.ok (pget (PyVal.dict kvs) "properties") from rfl]
  rw [except_bind_ok]
  have hif : (if truthy (pget (PyVal.dict kvs) "properties") = true
      then pget (PyVal.dict kvs) "properties" else PyVal.dict []) = PyVal.dict pk := hpk
  rw [hif]
  show (watershedExtract (PyVal.dict pk) >>= fun r => pure (Option.some r)) =
    Except.ok (Option.some (watershedRecordOf (PyVal.dict kvs)))
  rw [watershedExtract_dict pk, except_bind_ok]
  unfold watershedRecordOf
  rw [hpk]
  rfl

theorem watershedTryBody_false (lat lon : ℚ)
    (containsP : PyVal → ℚ → ℚ → Except PyExc Bool) (f gd : PyVal)
    (hc : containsP gd lon lat = Except.ok false) :
    watershedTryBody lat lon containsP f gd = Except.ok Option.none := by
  unfold watershedTryBody
  rw [hc, except_bind_ok]
  simp

/-- A candidate feature passes the geometry pre-checks (does not `continue`). -/
theorem watershedCandidate_checks (f : PyVal) (hwf : watershedCandidateWF f = true) :
    ∃ gk, pget f "geometry" = PyVal.dict gk ∧ truthy (PyVal.dict gk) = true ∧
      truthy ((dictLookup gk "coordinates").getD PyVal.none) = true := by
  obtain ⟨kvs, rfl⟩ : ∃ kvs, f = PyVal.dict kvs := by
    cases f <;> simp_all [watershedCandidateWF]
  unfold watershedCandidateWF at hwf
  rw [Bool.and_eq_true] at hwf
  obtain ⟨hg, _⟩ := hwf
  cases hgv : (dictLookup kvs "geometry").getD PyVal.none with
  | dict gk =>
    rw [hgv] at hg
    rw [Bool.and_eq_true] at hg
    refine ⟨gk, by simp [pget, hgv], ?_, hg.2⟩
    simp [truthy]
    intro hemp
    rw [hemp] at hg
    simp [truthy] at hg
  | none => rw [hgv] at hg; simp at hg
  | bool b => rw [hgv] at hg; simp at hg
  | num q => rw [hgv] at hg; simp at hg
  | str s => rw [hgv] at hg; simp at hg
  | list xs => rw [hgv] at hg; simp at hg

/-- One-step unfolding of the watershed loop. -/
theorem watershedLoop_cons (lat lon : ℚ)
    (containsP : PyVal → ℚ → ℚ → Except PyExc Bool) (feat : PyVal) (rest : List PyVal) :
    watershedLoop lat lon containsP (feat :: rest) =
      (do
        let gd ← pyAttrGet feat "geometry"
        let skip ←
          if ¬ truthy gd then pure true
          else do
            let c ← pyAttrGet gd "coordinates"
            pure (!truthy c)
        if skip then watershedLoop lat lon containsP rest
        else
          match watershedTryBody lat lon containsP feat gd with
          | Except.error _ => watershedLoop lat lon containsP rest
          | Except.ok Option.none => watershedLoop lat lon containsP rest
          | Except.ok (Option.some r) => Except.ok r) := rfl

/-- On a candidate feature the geometry pre-checks pass, so one loop step reduces
to the outcome of the `try:` body. -/
theorem watershedLoop_candidate_step (lat lon : ℚ)
    (containsP : PyVal → ℚ → ℚ → Except PyExc Bool) (x : PyVal) (rest : List PyVal)
    (hx : watershedCandidateWF x = true) :
    watershedLoop lat lon containsP (x :: rest) =
      match watershedTryBody lat lon containsP x (featGeom x) with
      | Except.error _ => watershedLoop lat lon containsP rest
      | Except.ok Option.none => watershedLoop lat lon containsP rest
      | Except.ok (Option.some r) => Except.ok r := by
  obtain ⟨gk, hgd, hgt, hct⟩ := watershedCandidate_checks x hx
  obtain ⟨kvs, rfl⟩ : ∃ kvs, x = PyVal.dict kvs := by
    cases x <;> simp_all [watershedCandidateWF]
  rw [watershedLoop_cons]
  rw [show pyAttrGet (PyVal.dict kvs) "geometry" =
    Except.ok (pget (PyVal.dict kvs) "geometry") from rfl]
  rw [except_bind_ok, hgd]
  rw [if_neg (by rw [hgt]; simp)]
  rw [show pyAttrGet (PyVal.dict gk) "coordinates" =
    Except.ok ((dictLookup gk "coordinates").getD PyVal.none) from rfl]
  rw [except_bind_ok, except_pure_eq, except_bind_ok]
  rw [hct]
  simp only [Bool.not_true, Bool.false_eq_true, if_false]
  rw [show featGeom (PyVal.dict kvs) = PyVal.dict gk from hgd]

/-- If every containment test returns false the loop yields the placeholder. -/
theorem watershedLoop_all_false (lat lon : ℚ)
    (containsP : PyVal → ℚ → ℚ → Except PyExc Bool) (fs : List PyVal)
    (hwf : ∀ f ∈ fs, watershedCandidateWF f = true)
    (hall : ∀ f ∈ fs, containsP (featGeom f) lon lat = Except.ok false) :
    watershedLoop lat lon containsP fs = Except.ok watershedPlaceholder := by
  induction fs with
  | nil => rfl
  | cons x xs ih =>
    rw [watershedLoop_candidate_step lat lon containsP x xs (hwf x (List.mem_cons_self x xs))]
    rw [watershedTryBody_false lat lon containsP x (featGeom x)
      (hall x (List.mem_cons_self x xs))]
    exact ih (fun f hf => hwf f (List.mem_cons_of_mem x hf))
      (fun f hf => hall f (List.mem_cons_of_mem x hf))

/-- The first feature whose containment test returns true determines the record. -/
theorem watershedLoop_first_true (lat lon : ℚ)
    (containsP : PyVal → ℚ → ℚ → Except PyExc Bool) (pre : List PyVal) (f : PyVal)
    (post : List PyVal)
    (hwf : ∀ g ∈ pre ++ f :: post, watershedCandidateWF g = true)
    (hpre : ∀ g ∈ pre, containsP (featGeom g) lon lat = Except.ok false)
    (hf : containsP (featGeom f) lon lat = Except.ok true) :
    watershedLoop lat lon containsP (pre ++ f :: post) =
      Except.ok (watershedRecordOf f) := by
  induction pre with
  | nil =>
    have hx := hwf f (by simp)
    rw [List.nil_append]
    rw [watershedLoop_candidate_step lat lon containsP f post hx]
    rw [watershedTryBody_true lat lon containsP f hx hf]
  | cons x xs ih =>
    have hx := hwf x (by simp)
    rw [List.cons_append]
    rw [watershedLoop_candidate_step lat lon containsP x (xs ++ f :: post) hx]
    rw [watershedTryBody_false lat lon containsP x (featGeom x)
      (hpre x (List.mem_cons_self x xs))]
    exact ih (fun g hg => hwf g (by simp at hg ⊢; tauto))
      (fun g hg => hpre g (List.mem_cons_of_mem x hg))

/-- On a dataset whose features list is present and non-empty, the watershed
resolver is the feature loop. -/
theorem watershed_main_eq (lat lon : ℚ)
    (containsP : PyVal → ℚ → ℚ → Except PyExc Bool) (kvs : List (String × PyVal))
    (fs : List PyVal) (hfeat : dictLookup kvs "features" = Option.some (PyVal.list fs))
    (hfs : fs ≠ []) :
    get_watershed_for_location lat lon containsP (PyVal.dict kvs) =
      watershedLoop lat lon containsP fs := by
  have hkne : kvs ≠ [] := dictLookup_ne_nil hfeat
  have htg : truthy (PyVal.dict kvs) = true := by simp [truthy, hkne]
  have htf : truthy (PyVal.list fs) = true := by simp [truthy, hfs]
  unfold get_watershed_for_location
  rw [if_neg (by rw [htg]; simp)]
  rw [show pyAttrGet (PyVal.dict kvs) "features" = Except.ok (PyVal.list fs) by
    simp [pyAttrGet, hfeat]]
  rw [except_bind_ok]
  rw [if_neg (by rw [htf]; simp)]
  rw [show pySubscrS (PyVal.dict kvs) "features" = Except.ok (PyVal.list fs) by
    simp [pySubscrS, hfeat]]
  rw [except_bind_ok]
  rw [show pyIter (PyVal.list fs) = Except.ok fs from rfl]
  rw [except_bind_ok]

/-- The watershed loop never raises on features whose truthy geometries are
dicts: the pre-checks succeed and everything else is inside `try/except`. -/
theorem watershedLoop_no_raise (lat lon : ℚ)
    (containsP : PyVal → ℚ → ℚ → Except PyExc Bool) (fs : List PyVal)
    (hwf : ∀ f ∈ fs, watershedFeatWF f = true) :
    ∃ r, watershedLoop lat lon containsP fs = Except.ok r := by
  induction fs with
  | nil => exact ⟨watershedPlaceholder, rfl⟩
  | cons x xs ih =>
    have hx := hwf x (List.mem_cons_self x xs)
    have ihx := ih fun f hf => hwf f (List.mem_cons_of_mem x hf)
    obtain ⟨kvs, rfl⟩ : ∃ kvs, x = PyVal.dict kvs := by
      cases x <;> simp_all [watershedFeatWF]
    rw [watershedLoop_cons]
    rw [show pyAttrGet (PyVal.dict kvs) "geometry" =
      Except.ok ((dictLookup kvs "geometry").getD PyVal.none) from rfl]
    rw [except_bind_ok]
    by_cases hgt : truthy ((dictLookup kvs "geometry").getD PyVal.none) = true
    · simp only [watershedFeatWF, truthyImpliesDict] at hx
      rw [if_pos hgt] at hx
      cases hgv : (dictLookup kvs "geometry").getD PyVal.none with
      | dict gk =>
        rw [hgv] at hgt
        rw [if_neg (by rw [hgt]; simp)]
        rw [show pyAttrGet (PyVal.dict gk) "coordinates" =
          Except.ok ((dictLookup gk "coordinates").getD PyVal.none) from rfl]
        rw [except_bind_ok, except_pure_eq, except_bind_ok]
        by_cases hct : truthy ((dictLookup gk "coordinates").getD PyVal.none) = true
        · rw [hct]
          simp only [Bool.not_true, Bool.false_eq_true, if_false]
          cases htb : watershedTryBody lat lon containsP (PyVal.dict kvs) (PyVal.dict gk) with
          | error e => exact ihx
          | ok o =>
            cases o with
            | none => exact ihx
            | some r => exact ⟨r, rfl⟩
        · rw [Bool.not_eq_true] at hct
          rw [hct]
          simp only [Bool.not_false, if_pos]
          exact ihx
      | none => rw [hgv] at hx; simp at hx
      | bool b => rw [hgv] at hx; simp at hx
      | num q => rw [hgv] at hx; simp at hx
      | str s => rw [hgv] at hx; simp at hx
      | list l => rw [hgv] at hx; simp at hx
    · rw [if_pos (by rw [Bool.not_eq_true] at hgt; rw [hgt]; simp)]
      rw [except_pure_eq, except_bind_ok]
      simp only [if_pos]
      exact ihx

/-- The loaded dataset is always a dict. -/
theorem load_watershed_dict (content : Option PyVal) :
    ∃ kvs, _load_watershed_geojson content = PyVal.dict kvs := by
  cases content with
  | none => exact ⟨[], rfl⟩
  | some v => cases v <;> first | exact ⟨[], rfl⟩ | exact ⟨_, rfl⟩

theorem load_drought_dict (content : Option PyVal) :
    ∃ kvs, _load_drought_geojson content = PyVal.dict kvs := by
  cases content with
  | none => exact ⟨[], rfl⟩
  | some v => cases v <;> first | exact ⟨[], rfl⟩ | exact ⟨_, rfl⟩

/-- The drought resolver never raises on a well-formed loaded dataset. -/
theorem drought_no_raise (lat lon : ℚ) (geo : PyVal) (hwf : droughtGeoWF geo = true) :
    ∃ r, get_drought_risk_from_geojson lat lon geo = Except.ok r := by
  obtain ⟨kvs, rfl⟩ : ∃ kvs, geo = PyVal.dict kvs := by
    cases geo <;> simp_all [droughtGeoWF]
  by_cases htg : truthy (PyVal.dict kvs) = true
  · by_cases htf : truthy ((dictLookup kvs "features").getD PyVal.none) = true
    · simp only [droughtGeoWF] at hwf
      rw [htf] at hwf
      simp only [Bool.not_true, Bool.false_or] at hwf
      cases hfv : (dictLookup kvs "features").getD PyVal.none with
      | list fs =>
        rw [hfv] at hwf htf
        have hfeat : dictLookup kvs "features" = Option.some (PyVal.list fs) := by
          have := truthy_getD_lookup kvs "features"
          rw [hfv] at this
          exact this htf
        have hfs : fs ≠ [] := by
          simp [truthy] at htf
          intro hnil
          rw [hnil] at htf
          simp at htf
        have hall : ∀ f ∈ fs, droughtFeatWF f = true := by
          rw [List.all_eq_true] at hwf
          intro f hf
          exact hwf f hf
        rw [drought_main_eq lat lon kvs fs hfeat hall hfs]
        cases foldMin (featSqDist lat lon) (fs.filter droughtCandidate) Option.none with
        | none => exact ⟨droughtPlaceholder, rfl⟩
        | some p => exact ⟨droughtRecordOf p.1, by rw [show p = (p.1, p.2) from rfl]⟩
      | none => rw [hfv] at hwf; simp at hwf
      | bool b => rw [hfv] at hwf; simp at hwf
      | num q => rw [hfv] at hwf; simp at hwf
      | str s => rw [hfv] at hwf; simp at hwf
      | dict d => rw [hfv] at hwf; simp at hwf
    · refine ⟨droughtPlaceholder, ?_⟩
      unfold get_drought_risk_from_geojson
      rw [if_neg (by rw [htg]; simp)]
      rw [show pyAttrGet (PyVal.dict kvs) "features" =
        Except.ok ((dictLookup kvs "features").getD PyVal.none) from rfl]
      rw [except_bind_ok]
      rw [if_pos (by rw [Bool.not_eq_true] at htf; rw [htf]; simp)]
      rfl
  · refine ⟨droughtPlaceholder, ?_⟩
    unfold get_drought_risk_from_geojson
    rw [if_pos (by rw [Bool.not_eq_true] at htg; rw [htg]; simp)]
    rfl

/-- The watershed resolver never raises on a well-formed loaded dataset. -/
theorem watershed_no_raise (lat lon : ℚ)
    (containsP : PyVal → ℚ → ℚ → Except PyExc Bool) (geo : PyVal)
    (hwf : watershedGeoWF geo = true) :
    ∃ r, get_watershed_for_location lat lon containsP geo = Except.ok r := by
  obtain ⟨kvs, rfl⟩ : ∃ kvs, geo = PyVal.dict kvs := by
    cases geo <;> simp_all [watershedGeoWF]
  by_cases htg : truthy (PyVal.dict kvs) = true
  · by_cases htf : truthy ((dictLookup kvs "features").getD PyVal.none) = true
    · simp only [watershedGeoWF] at hwf
      rw [htf] at hwf
      simp only [Bool.not_true, Bool.false_or] at hwf
      cases hfv : (dictLookup kvs "features").getD PyVal.none with
      | list fs =>
        rw [hfv] at hwf htf
        have hfeat : dictLookup kvs "features" = Option.some (PyVal.list fs) := by
          have := truthy_getD_lookup kvs "features"
          rw [hfv] at this
          exact this htf
        have hfs : fs ≠ [] := by
          simp [truthy] at htf
          intro hnil
          rw [hnil] at htf
          simp at htf
        have hall : ∀ f ∈ fs, watershedFeatWF f = true := by
          rw [List.all_eq_true] at hwf
          intro f hf
          exact hwf f hf
        rw [watershed_main_eq lat lon containsP kvs fs hfeat hfs]
        exact watershedLoop_no_raise lat lon containsP fs hall
      | none => rw [hfv] at hwf; simp at hwf
      | bool b => rw [hfv] at hwf; simp at hwf
      | num q => rw [hfv] at hwf; simp at hwf
      | str s => rw [hfv] at hwf; simp at hwf
      | dict d => rw [hfv] at hwf; simp at hwf
    · refine ⟨watershedPlaceholder, ?_⟩
      unfold get_watershed_for_location
      rw [if_neg (by rw [htg]; simp)]
      rw [show pyAttrGet (PyVal.dict kvs) "features" =
        Except.ok ((dictLookup kvs "features").getD PyVal.none) from rfl]
      rw [except_bind_ok]
      rw [if_pos (by rw [Bool.not_eq_true] at htf; rw [htf]; simp)]
      rfl
  · refine ⟨watershedPlaceholder, ?_⟩
    unfold get_watershed_for_location
    rw [if_pos (by rw [Bool.not_eq_true] at htg; rw [htg]; simp)]
    rfl

/-! ### Claim theorems -/

/-- The additive band table stated by the spec for the confidence score:
40/30/20/10 by forecast count, 25/20/15 by ET0 window, 20/15/18 by strategy
type, 15/10/5 by weather risk, plus 5 for expected rain. -/
def confidencePointsSpec (et0 : ℚ) (fc : ℕ) (st : String) (rain : Bool)
    (wr : String) : ℤ :=
  (if fc ≥ 8 then 40 else if fc ≥ 5 then 30 else if fc ≥ 3 then 20 else 10) +
  (if 0 < et0 ∧ et0 < 10 then 25 else if 0 < et0 ∧ et0 < 15 then 20 else 15) +
  (if st = "water_saving" then 20 else if st = "risk_aware" then 15 else 18) +
  (if wr = "low" then 15 else if wr = "medium" then 10 else 5) +
  (if rain then 5 else 0)

/-- C3: `calculate_decision_confidence` returns the claimed additive band score
clamped into [0, 100]; being a pure function of exactly these five inputs it is
deterministic. -/
theorem confidence_band_formula_and_bounds :
    ∀ (et0 : ℚ) (forecast_count : ℕ) (strategy_type : String) (rain_expected : Bool)
      (weather_risk : String),
      calculate_decision_confidence et0 forecast_count strategy_type rain_expected
          weather_risk =
        ((min 100 (max 0 (confidencePointsSpec et0 forecast_count strategy_type
          rain_expected weather_risk)) : ℤ) : ℚ) ∧
      0 ≤ calculate_decision_confidence et0 forecast_count strategy_type rain_expected
          weather_risk ∧
      calculate_decision_confidence et0 forecast_count strategy_type rain_expected
          weather_risk ≤ 100 := by
  intro et0 fc st rain wr
  have heq : calculate_decision_confidence et0 fc st rain wr =
      ((min 100 (max 0 (confidencePointsSpec et0 fc st rain wr)) : ℤ) : ℚ) := by
    unfold calculate_decision_confidence confidencePointsSpec
    rw [pyRound_intCast]
  refine ⟨heq, ?_, ?_⟩
  · rw [heq]
    have h0 : (0:ℤ) ≤ min 100 (max 0 (confidencePointsSpec et0 fc st rain wr)) :=
      le_min (by norm_num) (le_max_left 0 _)
    exact_mod_cast h0
  · rw [heq]
    have h1 : min (100:ℤ) (max 0 (confidencePointsSpec et0 fc st rain wr)) ≤ 100 :=
      min_le_left _ _
    exact_mod_cast h1

/-- C9: the per-slot suitability score `0.4·humidity − 0.3·temp − 0.6·wind` used
by `analyze_hourly_irrigation` is non-decreasing in humidity and non-increasing
in temperature and wind speed, holding the other inputs fixed. -/
theorem suitability_score_monotonicity :
    ∀ temp humidity wind temp2 humidity2 wind2 : ℚ,
      (humidity ≤ humidity2 →
        irrigationSuitabilityScore temp humidity wind ≤
          irrigationSuitabilityScore temp humidity2 wind) ∧
      (temp ≤ temp2 →
        irrigationSuitabilityScore temp2 humidity wind ≤
          irrigationSuitabilityScore temp humidity wind) ∧
      (wind ≤ wind2 →
        irrigationSuitabilityScore temp humidity wind2 ≤
          irrigationSuitabilityScore temp humidity wind) := by
  intro t h w t2 h2 w2
  unfold irrigationSuitabilityScore
  refine ⟨fun hh => ?_, fun ht => ?_, fun hw => ?_⟩ <;> nlinarith

/-- Witness for C9 at a concrete slot triple. -/
theorem suitability_score_monotonicity_witness :
    irrigationSuitabilityScore 20 50 3 ≤ irrigationSuitabilityScore 20 60 3 ∧
      irrigationSuitabilityScore 25 50 3 ≤ irrigationSuitabilityScore 20 50 3 ∧
      irrigationSuitabilityScore 20 50 4 ≤ irrigationSuitabilityScore 20 50 3 :=
  ⟨(suitability_score_monotonicity 20 50 3 20 60 4).1 (by norm_num),
   (suitability_score_monotonicity 20 50 3 25 60 4).2.1 (by norm_num),
   (suitability_score_monotonicity 20 50 3 25 60 4).2.2 (by norm_num)⟩

/-- C10: with a zero water-need baseline, `calculate_sustainability_metrics`
guards the division: water_saved is 0 for every strategy, the efficiency
sub-score is 100, and the returned record is complete with its score in
[0, 100]. -/
theorem zero_baseline_guard :
    ∀ (et0 area : ℚ) (rain_expected : Bool) (strategy_type platform_mode : String),
      (calculate_sustainability_metrics 0 et0 area rain_expected strategy_type
          platform_mode).water_saved = 0 ∧
      (calculate_sustainability_metrics 0 et0 area rain_expected strategy_type
          platform_mode).score_breakdown.efficiency = 100 ∧
      (calculate_sustainability_metrics 0 et0 area rain_expected strategy_type
          platform_mode).base_water = 0 ∧
      0 ≤ (calculate_sustainability_metrics 0 et0 area rain_expected strategy_type
          platform_mode).sustainability_score ∧
      (calculate_sustainability_metrics 0 et0 area rain_expected strategy_type
          platform_mode).sustainability_score ≤ 100 := by
  intro et0 area rain st pm
  have hws : (if st = "water_saving" then (0:ℚ)
      else if st = "risk_aware" then 0 * 0.2 else 0 * 0.1) = 0 := by
    split_ifs <;> norm_num
  unfold calculate_sustainability_metrics
  simp only [hws]
  refine ⟨?_, ?_, ?_, ?_, ?_⟩
  · rw [show ((0:ℚ) = ((0:ℤ):ℚ)) from rfl, pyRound_intCast]
  · rw [if_neg (by norm_num)]
    rw [show ((100:ℚ) = ((100:ℤ):ℚ)) by norm_num, pyRound_intCast]
  · rw [show ((0:ℚ) = ((0:ℤ):ℚ)) from rfl, pyRound_intCast]
  · exact le_max_left 0 _
  · exact max_le (by norm_num) (min_le_left _ _)

/-- The water-saving trigger as the spec states it: rain expected, or ET0 < 2,
or GeoJSON drought category High/Extreme, or a water-stressed basin. -/
def WaterSavingCond (et0 : ℚ) (rain_expected : Bool)
    (geojson_drought_category : Option String)
    (basin_water_stressed : Option Bool) : Prop :=
  rain_expected = true ∨ et0 < 2 ∨ geojson_drought_category = some "High" ∨
    geojson_drought_category = some "Extreme" ∨ basin_water_stressed = some true

/-- The risk-aware trigger as the spec states it: high weather risk
(temp > 30 or humidity < 30 or wind > 5) or a supplied drought score above 2. -/
def RiskAwareCond (humidity temp wind : ℚ) (drought_risk_score : Option ℚ) : Prop :=
  temp > 30 ∨ humidity < 30 ∨ wind > 5 ∨
    ∃ s, drought_risk_score = some s ∧ s > 2

/-- The boolean water-saving trigger exactly as the code computes it. -/
def waterSavingBool (et0 : ℚ) (rain : Bool) (cat : Option String)
    (basin : Option Bool) : Bool :=
  rain || decide (et0 < 2) ||
    (match cat with
     | Option.some s => s == "High" || s == "Extreme"
     | Option.none => false) ||
    basin.getD false

/-- The boolean risk-aware trigger exactly as the code computes it. -/
def riskAwareBool (humidity temp wind : ℚ) (drs : Option ℚ) : Bool :=
  ((if temp > 30 ∨ humidity < 30 ∨ wind > 5 then "high"
    else if temp > 25 ∨ humidity < 40 then "medium" else "low") == "high") ||
    (match drs with
     | Option.some s => decide (s ≠ 0) && decide (s > 2)
     | Option.none => false)

theorem waterSaving_bool_iff (et0 : ℚ) (rain : Bool) (cat : Option String)
    (basin : Option Bool) :
    waterSavingBool et0 rain cat basin = true ↔ WaterSavingCond et0 rain cat basin := by
  unfold waterSavingBool WaterSavingCond
  cases cat with
  | none =>
    cases basin with
    | none => simp
    | some b => cases b <;> simp
  | some s =>
    cases basin with
    | none => simp [or_assoc]
    | some b => cases b <;> simp [or_assoc]

theorem riskAware_bool_iff (humidity temp wind : ℚ) (drs : Option ℚ) :
    riskAwareBool humidity temp wind drs = true ↔
      RiskAwareCond humidity temp wind drs := by
  unfold riskAwareBool RiskAwareCond
  have hs : ∀ s : ℚ, (decide (s ≠ 0) && decide (s > 2)) = true ↔ s > 2 := by
    intro s
    rw [Bool.and_eq_true, decide_eq_true_eq, decide_eq_true_eq]
    constructor
    · exact fun h => h.2
    · intro h
      exact ⟨by intro h0; rw [h0] at h; norm_num at h, h⟩
  by_cases hw : temp > 30 ∨ humidity < 30 ∨ wind > 5
  · rw [if_pos hw]
    cases drs with
    | none => simp; tauto
    | some s => simp [hs]; tauto
  · rw [if_neg hw]
    have hne : ((if temp > 25 ∨ humidity < 40 then "medium" else "low") == "high") = false := by
      split_ifs <;> rfl
    rw [hne, Bool.false_or]
    cases drs with
    | none =>
      simp only [Bool.false_eq_true, false_iff]
      push_neg at hw
      rintro (h | h | h | ⟨s, hs1, _⟩)
      · exact absurd h (by linarith [hw.1])
      · exact absurd h (by linarith [hw.2.1])
      · exact absurd h (by linarith [hw.2.2])
      · exact Option.noConfusion hs1
    | some s =>
      rw [hs s]
      push_neg at hw
      constructor
      · intro h
        exact Or.inr (Or.inr (Or.inr ⟨s, rfl, h⟩))
      · rintro (h | h | h | ⟨s2, hs2, h2⟩)
        · exact absurd h (by linarith [hw.1])
        · exact absurd h (by linarith [hw.2.1])
        · exact absurd h (by linarith [hw.2.2])
        · cases hs2; exact h2

/-- C1: `generate_ai_irrigation_strategy` selects exactly one strategy type, with
the fixed precedence water_saving → risk_aware → recommended over the claimed
trigger conditions; in particular rain expected with temperature 35 °C yields
water_saving. -/
theorem strategy_selection_precedence :
    (∀ (platform_mode : String) (et0 water_need area humidity temp wind : ℚ)
       (rain_expected : Bool) (drought_risk_score : Option ℚ)
       (user_type : Option String) (geojson_drought_category : Option String)
       (basin_water_stressed : Option Bool),
      let r := generate_ai_irrigation_strategy platform_mode et0 water_need area
        humidity temp wind rain_expected drought_risk_score user_type
        geojson_drought_category basin_water_stressed
      (r.strategy_type = "water_saving" ↔
        WaterSavingCond et0 rain_expected geojson_drought_category
          basin_water_stressed) ∧
      (r.strategy_type = "risk_aware" ↔
        (¬ WaterSavingCond et0 rain_expected geojson_drought_category
            basin_water_stressed ∧
         RiskAwareCond humidity temp wind drought_risk_score)) ∧
      (r.strategy_type = "recommended" ↔
        (¬ WaterSavingCond et0 rain_expected geojson_drought_category
            basin_water_stressed ∧
         ¬ RiskAwareCond humidity temp wind drought_risk_score))) ∧
    (generate_ai_irrigation_strategy "👩‍🌾 Bireysel / Çiftçi Modu" 5 100 100 50 35 2
      true Option.none Option.none Option.none Option.none).strategy_type =
      "water_saving" := by
  constructor
  · intro pm et0 wn area hum temp wind rain drs ut cat basin
    have hty : (generate_ai_irrigation_strategy pm et0 wn area hum temp wind rain drs
        ut cat basin).strategy_type =
        (if waterSavingBool et0 rain cat basin = true then "water_saving"
         else if riskAwareBool hum temp wind drs = true then "risk_aware"
         else "recommended") := by
      simp only [generate_ai_irrigation_strategy, waterSavingBool, riskAwareBool]
      split_ifs <;> rfl
    intro r
    show (r.strategy_type = _ ↔ _) ∧ _
    rw [show r = generate_ai_irrigation_strategy pm et0 wn area hum temp wind rain drs
      ut cat basin from rfl]
    rw [hty]
    rw [← waterSaving_bool_iff et0 rain cat basin]
    rw [← riskAware_bool_iff hum temp wind drs]
    by_cases hws : waterSavingBool et0 rain cat basin = true
    · rw [if_pos hws]
      refine ⟨by simp [hws], ?_, ?_⟩
      · constructor
        · intro h; exact absurd h (by decide)
        · rintro ⟨hn, _⟩; exact absurd hws hn
      · constructor
        · intro h; exact absurd h (by decide)
        · rintro ⟨hn, _⟩; exact absurd hws hn
    · rw [if_neg hws]
      by_cases hra : riskAwareBool hum temp wind drs = true
      · rw [if_pos hra]
        refine ⟨?_, by simp [hws, hra], ?_⟩
        · constructor
          · intro h; exact absurd h (by decide)
          · intro h; exact absurd h hws
        · constructor
          · intro h; exact absurd h (by decide)
          · rintro ⟨_, hn⟩; exact absurd hra hn
      · rw [if_neg hra]
        refine ⟨?_, ?_, by simp [hws, hra]⟩
        · constructor
          · intro h; exact absurd h (by decide)
          · intro h; exact absurd h hws
        · constructor
          · intro h; exact absurd h (by decide)
          · rintro ⟨_, h⟩; exact absurd h hra
  · rfl

/-! ### C4: sustainability formula and regional adjustment -/

/-- Water attributed as saved, per strategy, as the spec states it. -/
def savedSpec (strategy_type : String) (w : ℚ) : ℚ :=
  if strategy_type = "water_saving" then w
  else if strategy_type = "risk_aware" then w * 0.2
  else w * 0.1

/-- Timing sub-score as the spec states it. -/
def timingSpec (rain_expected : Bool) (strategy_type : String) : ℚ :=
  if rain_expected then 100
  else if strategy_type = "water_saving" then 95
  else 80

/-- Environmental sub-score `clamp(100 − 5·ET0, 0, 100)` as the spec states it. -/
def envSpec (et0 : ℚ) : ℚ := max 0 (min 100 (100 - et0 * 5))

/-- Efficiency sub-score `min(100, 100 · saved/baseline)` as the spec states it. -/
def effSpec (strategy_type : String) (w : ℚ) : ℚ :=
  min 100 (savedSpec strategy_type w / w * 100)

theorem pyRound_nonneg (q : ℚ) (d : ℕ) (h : 0 ≤ q) : 0 ≤ pyRound q d := by
  have := pyRound_ge q d 0 (by exact_mod_cast h)
  exact_mod_cast this

theorem pyRound_le_hundred (q : ℚ) (d : ℕ) (h : q ≤ 100) : pyRound q d ≤ 100 := by
  have := pyRound_le q d 100 (by exact_mod_cast h)
  exact_mod_cast this

theorem waf_ne_zero (ri : RegionalIntelligence) (q : ℚ)
    (h : water_availability_factor ri = some q) : q ≠ 0 := by
  unfold water_availability_factor at h
  by_cases hd : ri.water_resources.data_available = true
  · rw [if_pos hd] at h
    cases hx : ri.water_resources.water_stress_index with
    | none => rw [hx, Option.map_none'] at h; exact Option.noConfusion h
    | some x =>
      rw [hx, Option.map_some'] at h
      have hq := Option.some.inj h
      have hle : (0.5 : ℚ) ≤ max 0.5 (min 1.5 (1 + (0.5 - x))) := le_max_left _ _
      rw [hq] at hle
      intro h0
      rw [h0] at hle
      norm_num at hle
  · rw [if_neg hd] at h
    exact Option.noConfusion h

theorem dif_ne_zero (ri : RegionalIntelligence) (q : ℚ)
    (h : drought_impact_factor ri = some q) : q ≠ 0 := by
  unfold drought_impact_factor at h
  by_cases hd : ri.drought_risk.data_available = true
  · rw [if_pos hd] at h
    cases hx : ri.drought_risk.spi_index with
    | none => rw [hx, Option.map_none'] at h; exact Option.noConfusion h
    | some x =>
      rw [hx, Option.map_some'] at h
      have hq := Option.some.inj h
      have hle : (0.5 : ℚ) ≤ max 0.5 (min 1.2 (1 + x / 6)) := le_max_left _ _
      rw [hq] at hle
      intro h0
      rw [h0] at hle
      norm_num at hle
  · rw [if_neg hd] at h
    exact Option.noConfusion h

theorem aef_ne_zero (ri : RegionalIntelligence) (q : ℚ)
    (h : agricultural_efficiency_factor ri = some q) : q ≠ 0 := by
  unfold agricultural_efficiency_factor at h
  by_cases hd : ri.agricultural_data.data_available = true
  · rw [if_pos hd] at h
    cases hx : ri.agricultural_data.farmer_adoption_rate with
    | none => rw [hx, Option.map_none'] at h; exact Option.noConfusion h
    | some x =>
      rw [hx, Option.map_some'] at h
      have hq := Option.some.inj h
      have hle : (0.8 : ℚ) ≤ max 0.8 (min 1.2 (0.8 + x / 250)) := le_max_left _ _
      rw [hq] at hle
      intro h0
      rw [h0] at hle
      norm_num at hle
  · rw [if_neg hd] at h
    exact Option.noConfusion h

theorem bsf_ne_zero (ri : RegionalIntelligence) (q : ℚ)
    (h : basin_stress_factor ri = some q) : q ≠ 0 := by
  unfold basin_stress_factor at h
  by_cases hd : (ri.watershed.data_available &&
      ri.watershed.water_stress_label == some "Yüksek") = true
  · rw [if_pos hd] at h
    have hq := Option.some.inj h
    rw [← hq]
    norm_num
  · rw [if_neg hd] at h
    exact Option.noConfusion h

/-- C4: with a positive baseline, water_saved / sustainability score follow the
claimed per-strategy attribution and weighted formula (the code rounds the
weighted sum to one decimal before the final clamp), the score is in [0, 100];
and when regional factors are available, the enhancement multiplies the score by
their arithmetic mean, re-clamps into [0, 100], and preserves the original. -/
theorem sustainability_formula_and_regional_adjustment :
    ∀ (w et0 area : ℚ) (rain_expected : Bool) (strategy_type platform_mode : String),
      w > 0 →
      ((calculate_sustainability_metrics w et0 area rain_expected strategy_type
          platform_mode).water_saved = pyRound (savedSpec strategy_type w) 1 ∧
       (calculate_sustainability_metrics w et0 area rain_expected strategy_type
          platform_mode).sustainability_score =
         max 0 (min 100 (pyRound (0.4 * effSpec strategy_type w +
           0.3 * timingSpec rain_expected strategy_type + 0.3 * envSpec et0) 1)) ∧
       0 ≤ (calculate_sustainability_metrics w et0 area rain_expected strategy_type
          platform_mode).sustainability_score ∧
       (calculate_sustainability_metrics w et0 area rain_expected strategy_type
          platform_mode).sustainability_score ≤ 100) ∧
      (∀ (base : SustainabilityMetrics) (ri : RegionalIntelligence),
        regionalFactors ri ≠ [] →
        (enhance_sustainability_with_regional_data base ri).metrics.sustainability_score =
          pyRound (max 0 (min 100 (base.sustainability_score *
            ((regionalFactors ri).sum / ((regionalFactors ri).length : ℚ))))) 1 ∧
        (enhance_sustainability_with_regional_data base ri).sustainability_score_original =
          some base.sustainability_score ∧
        0 ≤ (enhance_sustainability_with_regional_data base
          ri).metrics.sustainability_score ∧
        (enhance_sustainability_with_regional_data base
          ri).metrics.sustainability_score ≤ 100) := by
  intro w et0 area rain st pm hw
  constructor
  · simp only [calculate_sustainability_metrics]
    rw [if_pos hw]
    refine ⟨rfl, ?_, le_max_left 0 _, max_le (by norm_num) (min_le_left _ _)⟩
    have harith : (if st = "water_saving" then w
        else if st = "risk_aware" then w * 0.2 else w * 0.1) / w * 100 =
        savedSpec st w / w * 100 := by
      unfold savedSpec
      rfl
    rw [harith]
    have hform : min 100 (savedSpec st w / w * 100) * 0.4 +
        (if rain = true then 100 else if st = "water_saving" then 95 else 80) * 0.3 +
        max 0 (min 100 (100 - et0 * 5)) * 0.3 =
        0.4 * effSpec st w + 0.3 * timingSpec rain st + 0.3 * envSpec et0 := by
      unfold effSpec timingSpec envSpec
      ring
    rw [hform]
  · intro base ri hne
    have hha : ((match water_availability_factor ri with
        | Option.some q => decide (q ≠ 0)
        | Option.none => false) ||
        (match drought_impact_factor ri with
         | Option.some q => decide (q ≠ 0)
         | Option.none => false) ||
        (match agricultural_efficiency_factor ri with
         | Option.some q => decide (q ≠ 0)
         | Option.none => false) ||
        (match basin_stress_factor ri with
         | Option.some q => decide (q ≠ 0)
         | Option.none => false)) = true := by
      by_contra hcon
      rw [Bool.not_eq_true] at hcon
      simp only [Bool.or_eq_false_iff] at hcon
      obtain ⟨⟨⟨h1, h2⟩, h3⟩, h4⟩ := hcon
      apply hne
      unfold regionalFactors
      have e1 : water_availability_factor ri = Option.none := by
        cases hx : water_availability_factor ri with
        | none => rfl
        | some q => rw [hx] at h1; simp [waf_ne_zero ri q hx] at h1
      have e2 : drought_impact_factor ri = Option.none := by
        cases hx : drought_impact_factor ri with
        | none => rfl
        | some q => rw [hx] at h2; simp [dif_ne_zero ri q hx] at h2
      have e3 : agricultural_efficiency_factor ri = Option.none := by
        cases hx : agricultural_efficiency_factor ri with
        | none => rfl
        | some q => rw [hx] at h3; simp [aef_ne_zero ri q hx] at h3
      have e4 : basin_stress_factor ri = Option.none := by
        cases hx : basin_stress_factor ri with
        | none => rfl
        | some q => rw [hx] at h4; simp [bsf_ne_zero ri q hx] at h4
      rw [e1, e2, e3, e4]
      rfl
    simp only [enhance_sustainability_with_regional_data]
    rw [hha]
    simp only [Bool.true_or, if_pos]
    rw [if_pos (by exact hne)]
    refine ⟨rfl, rfl, ?_, ?_⟩
    · exact pyRound_nonneg _ 1 (le_max_left 0 _)
    · exact pyRound_le_hundred _ 1 (max_le (by norm_num) (min_le_left _ _))

/-! ### C4 witness inputs -/

/-- A concrete base metrics record for the regional-adjustment witness. -/
def sampleBaseMetrics : SustainabilityMetrics :=
  calculate_sustainability_metrics 100 4 10 false "water_saving" "farmer"

/-- A concrete regional-intelligence record with one available factor. -/
def sampleRegionalIntel : RegionalIntelligence :=
  { water_resources := { data_available := true, water_stress_index := some 0.3 }
    drought_risk := { data_available := false, spi_index := Option.none }
    agricultural_data := { data_available := false, farmer_adoption_rate := Option.none }
    watershed := { data_available := true, water_stress_label := some "Yüksek" } }

/-- Witness for C4 at a concrete baseline and regional record. -/
theorem sustainability_formula_witness :
    (calculate_sustainability_metrics 100 4 10 false "water_saving"
        "farmer").sustainability_score =
      max 0 (min 100 (pyRound (0.4 * effSpec "water_saving" 100 +
        0.3 * timingSpec false "water_saving" + 0.3 * envSpec 4) 1)) ∧
    (enhance_sustainability_with_regional_data sampleBaseMetrics
        sampleRegionalIntel).sustainability_score_original =
      some sampleBaseMetrics.sustainability_score := by
  have h := sustainability_formula_and_regional_adjustment 100 4 10 false "water_saving"
    "farmer" (by norm_num)
  exact ⟨h.1.2.1, (h.2 sampleBaseMetrics sampleRegionalIntel (by decide)).2.1⟩

/-! ### C8: the "delay" scenario -/

/-- C8 counterexample: with a forecast present and current ET0 = 0.05, the delay
scenario has water use baseline·(0.9·ET0 / max(ET0, 0.1)) = 45, not
baseline × 0.9 = 90 as the claim states. -/
theorem delay_scenario_counterexample :
    (simulate_scenarios 100 (1/20) 10 false true).delay.water_used = 45 ∧
    (simulate_scenarios 100 (1/20) 10 false true).delay.water_used ≠ 100 * 0.9 := by
  have h1 : (simulate_scenarios 100 (1/20) 10 false true).delay.water_used =
      pyRound (100 * ((1/20) * 0.9 / max (1/20) 0.1)) 1 := rfl
  have h2 : (100 * ((1/20) * (0.9:ℚ) / max (1/20) 0.1)) = ((45:ℤ):ℚ) := by
    rw [max_eq_right (by norm_num : (1/20:ℚ) ≤ 0.1)]
    norm_num
  have h3 : (simulate_scenarios 100 (1/20) 10 false true).delay.water_used = 45 := by
    rw [h1, h2, pyRound_intCast]
    norm_num
  refine ⟨h3, ?_⟩
  rw [h3]
  norm_num

/-- C8 (amended): with a forecast, the delay water use is the baseline scaled by
`0.9·ET0 / max(ET0, 0.1)` (rounded to one decimal) — equal to baseline × 0.9
exactly when ET0 ≥ 0.1 — and its score is 85 when the assumed future ET0
(0.9·ET0) is lower than the current ET0, i.e. when ET0 > 0, else 70; without a
forecast the water use is baseline × 1.1 (rounded) with score 65. -/
theorem delay_scenario_characterization :
    ∀ (w et0 area : ℚ) (rain : Bool) (forecastTruthy : Bool),
      (forecastTruthy = true →
        (simulate_scenarios w et0 area rain forecastTruthy).delay.water_used =
          pyRound (w * (et0 * 0.9 / max et0 0.1)) 1 ∧
        (simulate_scenarios w et0 area rain forecastTruthy).delay.sustainability_score =
          (if et0 * 0.9 < et0 then 85 else 70) ∧
        ((simulate_scenarios w et0 area rain forecastTruthy).delay.sustainability_score =
            85 ↔ et0 > 0)) ∧
      (forecastTruthy = false →
        (simulate_scenarios w et0 area rain forecastTruthy).delay.water_used =
          pyRound (w * 1.1) 1 ∧
        (simulate_scenarios w et0 area rain forecastTruthy).delay.sustainability_score =
          65) ∧
      (forecastTruthy = true → et0 ≥ 0.1 →
        (simulate_scenarios w et0 area rain forecastTruthy).delay.water_used =
          pyRound (w * 0.9) 1) := by
  intro w et0 area rain fc
  have hiff : et0 * 0.9 < et0 ↔ et0 > 0 := by
    constructor
    · intro h; nlinarith
    · intro h; nlinarith
  cases fc with
  | true =>
    refine ⟨fun _ => ⟨rfl, rfl, ?_⟩, fun h => Bool.noConfusion h, fun _ het0 => ?_⟩
    · show (if et0 * 0.9 < et0 then (85:ℚ) else 70) = 85 ↔ et0 > 0
      by_cases hlt : et0 * 0.9 < et0
      · rw [if_pos hlt]
        simp only [true_iff]
        exact hiff.mp hlt
      · rw [if_neg hlt]
        constructor
        · intro h; norm_num at h
        · intro h; exact absurd (hiff.mpr h) hlt
    · show pyRound (w * (et0 * 0.9 / max et0 0.1)) 1 = pyRound (w * 0.9) 1
      have hmax : max et0 0.1 = et0 := max_eq_left (by linarith)
      have hpos : et0 ≠ 0 := by intro h; rw [h] at het0; norm_num at het0
      rw [hmax]
      congr 1
      field_simp
  | false =>
    exact ⟨fun h => Bool.noConfusion h, fun _ => ⟨rfl, rfl⟩, fun h => Bool.noConfusion h⟩

/-- Witness for C8 at concrete inputs on both forecast branches. -/
theorem delay_scenario_witness :
    (simulate_scenarios 200 3 10 false true).delay.water_used =
      pyRound (200 * (3 * 0.9 / max 3 0.1)) 1 ∧
    (simulate_scenarios 200 3 10 false true).delay.water_used = pyRound (200 * 0.9) 1 ∧
    (simulate_scenarios 200 3 10 false false).delay.water_used = pyRound (200 * 1.1) 1 := by
  refine ⟨((delay_scenario_characterization 200 3 10 false true).1 rfl).1, ?_, ?_⟩
  · exact (delay_scenario_characterization 200 3 10 false true).2.2 rfl (by norm_num)
  · exact ((delay_scenario_characterization 200 3 10 false false).2.1 rfl).1

/-! ### C6: region matching in tabular datasets -/

/-- The single sample row at (0.4, 0.4). -/
def sampleRow : RegionRow := { region_name := Option.none, lat := 2/5, lon := 2/5 }

/-- A one-row dataset whose row is inside the per-axis box tolerance but outside
the Euclidean 0.5-degree disc around the query (0, 0). -/
def sampleBoxDF : RegionDataFrame :=
  { has_region_name := false, has_latlon := true, rows := [sampleRow] }

theorem sampleBoxDF_tolRows : toleranceRows sampleBoxDF 0 0 (1/2) = [sampleRow] := by
  have habs : |(2/5:ℚ) - 0| ≤ 1/2 := by
    rw [sub_zero, abs_of_nonneg (by norm_num)]
    norm_num
  unfold toleranceRows sampleBoxDF
  rw [List.filter_cons]
  rw [if_pos (show (decide (|sampleRow.lat - 0| ≤ (1/2:ℚ)) &&
      decide (|sampleRow.lon - 0| ≤ (1/2:ℚ))) = true by
    simp only [Bool.and_eq_true, decide_eq_true_eq]
    exact ⟨habs, habs⟩)]
  rfl

theorem sampleBoxDF_tolRows_far : toleranceRows sampleBoxDF 30 30 (1/2) = [] := by
  unfold toleranceRows sampleBoxDF
  rw [List.filter_cons]
  rw [if_neg ?hc]
  · rfl
  case hc =>
    intro hc
    rw [Bool.and_eq_true, decide_eq_true_eq, decide_eq_true_eq] at hc
    have h1 : |(2/5:ℚ) - 30| ≤ 1/2 := hc.1
    rw [abs_of_neg (by norm_num)] at h1
    norm_num at h1

/-- C6 counterexample: for the query (0,0) no row lies within the Euclidean
0.5-degree tolerance (the squared distance 0.32 of the single row exceeds 0.25), yet
`find_region_in_dataset` returns that row rather than nothing: the code filters
by a per-axis (Chebyshev box) tolerance, not a Euclidean disc. -/
theorem region_tolerance_counterexample :
    find_region_in_dataset (some sampleBoxDF) 0 0 Option.none (1/2) = some sampleRow ∧
    rowSqDist 0 0 sampleRow > (1/2)^2 := by
  constructor
  · have hred : find_region_in_dataset (some sampleBoxDF) 0 0 Option.none (1/2) =
        (match toleranceRows sampleBoxDF 0 0 (1/2) with
         | [] => Option.none
         | r :: rest => Option.some (firstMinRow 0 0 r rest)) := rfl
    rw [hred, sampleBoxDF_tolRows]
    rfl
  · show ((2/5:ℚ) - 0)^2 + ((2/5:ℚ) - 0)^2 > (1/2)^2
    norm_num

theorem foldl_min_spec {α : Type} (cost : α → ℚ) (xs : List α) :
    ∀ x : α,
      (xs.foldl (fun acc y => if cost y < cost acc then y else acc) x) ∈ x :: xs ∧
      ∀ y ∈ x :: xs,
        cost (xs.foldl (fun acc y => if cost y < cost acc then y else acc) x) ≤ cost y := by
  induction xs with
  | nil =>
    intro x
    exact ⟨List.mem_cons_self x [], by
      intro y hy
      rcases List.mem_cons.mp hy with rfl | hy
      · exact le_refl _
      · exact absurd hy (List.not_mem_nil y)⟩
  | cons z zs ih =>
    intro x
    rw [List.foldl_cons]
    by_cases hz : cost z < cost x
    · rw [if_pos hz]
      obtain ⟨hmem, hall⟩ := ih z
      refine ⟨?_, ?_⟩
      · rcases List.mem_cons.mp hmem with h | h
        · rw [h]; simp
        · simp [h]
      · intro y hy
        rcases List.mem_cons.mp hy with h | hy
        · rw [h]
          exact le_trans (hall z (List.mem_cons_self z zs)) (le_of_lt hz)
        · exact hall y hy
    · rw [if_neg hz]
      obtain ⟨hmem, hall⟩ := ih x
      refine ⟨?_, ?_⟩
      · rcases List.mem_cons.mp hmem with h | h
        · rw [h]; simp
        · simp [h]
      · intro y hy
        rcases List.mem_cons.mp hy with h | hy
        · rw [h]
          exact hall x (List.mem_cons_self x zs)
        · rcases List.mem_cons.mp hy with h | hy
          · rw [h]
            exact le_trans (hall x (List.mem_cons_self x zs)) (le_of_not_lt hz)
          · exact hall y (List.mem_cons_of_mem x hy)

/-- C6 (amended): with no (or empty) region name, `find_region_in_dataset`
returns the first row minimizing Euclidean distance among the rows whose
latitude AND longitude each differ from the query by at most the 0.5-degree
tolerance (a per-axis box, not a Euclidean disc), or nothing when no row lies in
that box; a supplied region name matching by case-insensitive substring
containment takes priority over coordinate matching. -/
theorem region_match_characterization :
    ∀ (df : RegionDataFrame) (lat lon : ℚ),
      (df.has_latlon = true →
        (toleranceRows df lat lon (1/2) = [] →
          find_region_in_dataset (some df) lat lon Option.none (1/2) = Option.none) ∧
        (∀ r rest, toleranceRows df lat lon (1/2) = r :: rest →
          ∃ b, find_region_in_dataset (some df) lat lon Option.none (1/2) = some b ∧
            b ∈ toleranceRows df lat lon (1/2) ∧
            ∀ s ∈ toleranceRows df lat lon (1/2),
              rowSqDist lat lon b ≤ rowSqDist lat lon s)) ∧
      (∀ (rn : String) (r0 : RegionRow), rn ≠ "" → df.has_region_name = true →
        r0 ∈ df.rows → nameMatches r0.region_name rn = true →
        ∃ b, find_region_in_dataset (some df) lat lon (some rn) (1/2) = some b ∧
          nameMatches b.region_name rn = true) := by
  intro df lat lon
  have hnone : nameHitOpt df Option.none = Option.none := rfl
  constructor
  · intro hll
    by_cases hemp : df.rows.isEmpty = true
    · have hrows : df.rows = [] := List.isEmpty_iff.mp hemp
      have hfr : find_region_in_dataset (some df) lat lon Option.none (1/2) =
          Option.none := by
        have h0 : find_region_in_dataset (some df) lat lon Option.none (1/2) =
            (if df.rows.isEmpty = true then Option.none
             else match nameHitOpt df Option.none with
               | Option.some r => Option.some r
               | Option.none =>
                 if df.has_latlon = true then
                   match toleranceRows df lat lon (1/2) with
                   | [] => Option.none
                   | r :: rest => Option.some (firstMinRow lat lon r rest)
                 else Option.none) := rfl
        rw [h0, if_pos hemp]
      constructor
      · intro _
        exact hfr
      · intro r rest htr
        rw [show toleranceRows df lat lon (1/2) = [] by
          unfold toleranceRows; rw [hrows]; rfl] at htr
        exact List.noConfusion htr
    · have hnosup : find_region_in_dataset (some df) lat lon Option.none (1/2) =
          (if df.has_latlon = true then
            match toleranceRows df lat lon (1/2) with
            | [] => Option.none
            | r :: rest => Option.some (firstMinRow lat lon r rest)
          else Option.none) := by
        have h0 : find_region_in_dataset (some df) lat lon Option.none (1/2) =
            (if df.rows.isEmpty = true then Option.none
             else match nameHitOpt df Option.none with
               | Option.some r => Option.some r
               | Option.none =>
                 if df.has_latlon = true then
                   match toleranceRows df lat lon (1/2) with
                   | [] => Option.none
                   | r :: rest => Option.some (firstMinRow lat lon r rest)
                 else Option.none) := rfl
        rw [h0, if_neg hemp, hnone]
      rw [hnosup, if_pos hll]
      constructor
      · intro h
        rw [h]
      · intro r rest htr
        rw [htr]
        obtain ⟨hmem, hall⟩ := foldl_min_spec (rowSqDist lat lon) rest r
        exact ⟨firstMinRow lat lon r rest, rfl, htr ▸ hmem, fun s hs => hall s (htr ▸ hs)⟩
  · intro rn r0 hrn hhas hr0 hmatch
    have hemp : df.rows.isEmpty = false := by
      cases hrows : df.rows with
      | nil => rw [hrows] at hr0; exact absurd hr0 (List.not_mem_nil r0)
      | cons a l => rfl
    have hfind : ∃ b, df.rows.find? (fun r => nameMatches r.region_name rn) = some b := by
      cases hf : df.rows.find? (fun r => nameMatches r.region_name rn) with
      | none =>
        rw [List.find?_eq_none] at hf
        exact absurd hmatch (by simpa using hf r0 hr0)
      | some b => exact ⟨b, rfl⟩
    obtain ⟨b, hb⟩ := hfind
    have hbp : nameMatches b.region_name rn = true :=
      @List.find?_some RegionRow (fun r => nameMatches r.region_name rn) b df.rows hb
    have hhit : nameHitOpt df (some rn) = some b := by
      unfold nameHitOpt
      rw [if_pos (show (nameSuppliedB (some rn) && df.has_region_name) = true by
        rw [hhas, show nameSuppliedB (some rn) = decide (rn ≠ "") from rfl]
        simp [hrn])]
      rw [show (some rn).getD "" = rn from rfl]
      exact hb
    refine ⟨b, ?_, hbp⟩
    have h0 : find_region_in_dataset (some df) lat lon (some rn) (1/2) =
        (if df.rows.isEmpty = true then Option.none
         else match nameHitOpt df (some rn) with
           | Option.some r => Option.some r
           | Option.none =>
             if df.has_latlon = true then
               match toleranceRows df lat lon (1/2) with
               | [] => Option.none
               | r :: rest => Option.some (firstMinRow lat lon r rest)
             else Option.none) := rfl
    rw [h0, if_neg (by rw [hemp]; simp), hhit]

/-- Witness for C6: a name match, a box-tolerance match, and an empty-box miss. -/
theorem region_match_witness :
    (∃ b, find_region_in_dataset (some sampleBoxDF) 0 0 Option.none (1/2) = some b ∧
      b ∈ toleranceRows sampleBoxDF 0 0 (1/2) ∧
      ∀ s ∈ toleranceRows sampleBoxDF 0 0 (1/2), rowSqDist 0 0 b ≤ rowSqDist 0 0 s) ∧
    find_region_in_dataset (some sampleBoxDF) 30 30 Option.none (1/2) = Option.none := by
  constructor
  · exact ((region_match_characterization sampleBoxDF 0 0).1 rfl).2
      sampleRow [] sampleBoxDF_tolRows
  · exact ((region_match_characterization sampleBoxDF 30 30).1 rfl).1 sampleBoxDF_tolRows_far

/-! ### C2: nearest-point drought resolution -/

/-- C2: on a well-formed dataset with at least one feature carrying coordinates,
the drought resolver returns the record of a feature minimizing the squared
flat-plane distance; the record takes the SPI from the 6/3/1-month priority
chain, maps it through the fixed thresholds, and degrades to the structured
"unavailable" record when no field is present or the value cannot be coerced. -/
theorem drought_nearest_point_resolution (lat lon : ℚ) (kvs : List (String × PyVal))
    (fs : List PyVal)
    (hfeat : dictLookup kvs "features" = Option.some (PyVal.list fs))
    (hwf : ∀ f ∈ fs, droughtFeatWF f = true)
    (hne : fs.filter droughtCandidate ≠ []) :
    ∃ b ∈ fs.filter droughtCandidate,
      (∀ f ∈ fs.filter droughtCandidate, featSqDist lat lon b ≤ featSqDist lat lon f) ∧
      get_drought_risk_from_geojson lat lon (PyVal.dict kvs) =
        Except.ok (droughtRecordOf b) ∧
      (∀ q : ℚ, pyFloat (firstSpiField b) = Except.ok q →
        droughtRecordOf b =
          { spi_value := Option.some (pyRound q 2), spi_label := fmtFixed2 q
            drought_category := _spi_to_drought_category q
            risk_label := riskLabel (_spi_to_drought_category q)
            data_available := true, source := "SPI GeoJSON" }) ∧
      ((isNone (firstSpiField b) = true ∨
          ∃ e, pyFloat (firstSpiField b) = Except.error e) →
        droughtRecordOf b = droughtPlaceholder) ∧
      (∀ s : ℚ, _spi_to_drought_category s =
        if s ≥ -0.5 then "Low" else if s ≥ -1 then "Medium"
        else if s ≥ -1.5 then "High" else "Extreme") := by
  have hfs : fs ≠ [] := by
    intro h
    rw [h] at hne
    exact hne rfl
  have heq := drought_main_eq lat lon kvs fs hfeat hwf hfs
  cases hfl : fs.filter droughtCandidate with
  | nil => exact absurd hfl hne
  | cons c rest =>
    obtain ⟨b, hfold, hbmem, hball⟩ := foldMin_none_spec (featSqDist lat lon) c rest
    refine ⟨b, hfl ▸ hbmem, fun f hf => hball f hf, ?_,
      fun q hq => droughtRecordOf_ok b q hq,
      fun h => droughtRecordOf_unavailable b h, fun s => rfl⟩
    rw [heq, hfl, hfold]

/-- Near and far sample drought features (GeoJSON coordinate order is
[lon, lat]). -/
def droughtFeatA : PyVal :=
  PyVal.dict [("geometry", PyVal.dict [("coordinates",
      PyVal.list [PyVal.num 32, PyVal.num 37])]),
    ("properties", PyVal.dict [("last6month", PyVal.num (-1))])]

/-- The farther sample feature. -/
def droughtFeatB : PyVal :=
  PyVal.dict [("geometry", PyVal.dict [("coordinates",
      PyVal.list [PyVal.num 40, PyVal.num 45])]),
    ("properties", PyVal.dict [("last3month", PyVal.num 1)])]

/-- The sample drought dataset object. -/
def droughtKvs : List (String × PyVal) :=
  [("features", PyVal.list [droughtFeatA, droughtFeatB])]

/-- Witness for C2: the query at (37, 32) resolves to the near feature. -/
theorem drought_nearest_point_witness :
    get_drought_risk_from_geojson 37 32 (PyVal.dict droughtKvs) =
      Except.ok (droughtRecordOf droughtFeatA) := by
  obtain ⟨b, hbmem, hmin, heq, _, _, _⟩ := drought_nearest_point_resolution 37 32
    droughtKvs [droughtFeatA, droughtFeatB] rfl (by decide)
    (by rw [show [droughtFeatA, droughtFeatB].filter droughtCandidate =
        [droughtFeatA, droughtFeatB] from rfl]
        exact List.cons_ne_nil _ _)
  rw [show [droughtFeatA, droughtFeatB].filter droughtCandidate =
    [droughtFeatA, droughtFeatB] from rfl] at hbmem hmin
  have hdA : featSqDist 37 32 droughtFeatA = 0 := by
    rw [show featSqDist 37 32 droughtFeatA =
      ((37:ℚ) - 37)^2 + ((32:ℚ) - 32)^2 from rfl]
    norm_num
  have hdB : featSqDist 37 32 droughtFeatB = 128 := by
    rw [show featSqDist 37 32 droughtFeatB =
      ((37:ℚ) - 45)^2 + ((32:ℚ) - 40)^2 from rfl]
    norm_num
  rcases List.mem_cons.mp hbmem with hA | hB
  · rw [hA] at heq
    exact heq
  · rcases List.mem_cons.mp hB with hB2 | hnil
    · rw [hB2] at hmin
      have hle := hmin droughtFeatA (List.mem_cons_self _ _)
      rw [hdA, hdB] at hle
      norm_num at hle
    · exact absurd hnil (List.not_mem_nil b)

/-! ### C5: resolvers and malformed data -/

/-- A dataset whose single feature carries a one-element coordinate array. -/
def malformedDroughtGeo : Option PyVal :=
  some (PyVal.dict [("features", PyVal.list
    [PyVal.dict [("geometry", PyVal.dict [("coordinates", PyVal.list [PyVal.num 5])])]])])

/-- C5 counterexample: the claim says the resolvers never raise on arbitrarily
malformed datasets, but a parsed feature whose coordinate array is too short
makes `coords[1]` raise IndexError in `get_drought_risk_from_geojson` (the
coordinate indexing sits outside any try/except). -/
theorem resolver_raises_counterexample :
    get_drought_risk_from_geojson 0 0 (_load_drought_geojson malformedDroughtGeo) =
      Except.error PyExc.indexError := rfl

/-- C5 (amended): the resolvers never raise when the dataset file is missing or
unparseable (the loaders degrade to an empty object, and the resolvers then
return the structured "unavailable" record), and never raise on datasets whose
parsed feature entries are well shaped; but arbitrarily malformed parsed
features can raise, as the counterexample shows. -/
theorem resolvers_guarded_no_raise :
    (∀ (lat lon : ℚ) (content : Option PyVal),
      droughtGeoWF (_load_drought_geojson content) = true →
      ∃ r, get_drought_risk_from_geojson lat lon (_load_drought_geojson content) =
        Except.ok r) ∧
    (∀ lat lon : ℚ,
      get_drought_risk_from_geojson lat lon (_load_drought_geojson Option.none) =
        Except.ok droughtPlaceholder) ∧
    (∀ (lat lon : ℚ) (containsP : PyVal → ℚ → ℚ → Except PyExc Bool)
       (content : Option PyVal),
      watershedGeoWF (_load_watershed_geojson content) = true →
      ∃ r, get_watershed_for_location lat lon containsP
        (_load_watershed_geojson content) = Except.ok r) ∧
    (∀ (lat lon : ℚ) (containsP : PyVal → ℚ → ℚ → Except PyExc Bool),
      get_watershed_for_location lat lon containsP
        (_load_watershed_geojson Option.none) = Except.ok watershedPlaceholder) ∧
    droughtPlaceholder.data_available = false ∧
    droughtPlaceholder.source = "Dataset unavailable" ∧
    watershedPlaceholder.data_available = false ∧
    watershedPlaceholder.source = "Dataset unavailable" := by
  refine ⟨?_, ?_, ?_, ?_, rfl, rfl, rfl, rfl⟩
  · intro lat lon content h
    exact drought_no_raise lat lon _ h
  · intro lat lon
    rfl
  · intro lat lon containsP content h
    exact watershed_no_raise lat lon containsP _ h
  · intro lat lon containsP
    rfl

/-- Witness for C5 on a concrete well-formed dataset and a missing file. -/
theorem resolvers_guarded_no_raise_witness :
    (∃ r, get_drought_risk_from_geojson 1 2
      (_load_drought_geojson (some (PyVal.dict droughtKvs))) = Except.ok r) ∧
    get_drought_risk_from_geojson 1 2 (_load_drought_geojson Option.none) =
      Except.ok droughtPlaceholder := by
  constructor
  · exact resolvers_guarded_no_raise.1 1 2 (some (PyVal.dict droughtKvs)) (by decide)
  · exact resolvers_guarded_no_raise.2.1 1 2

/-! ### C7: point-in-polygon watershed resolution -/

/-- C7: against a loaded dataset of candidate polygon features, the watershed
resolver returns the "unavailable" placeholder when no polygon contains the
point, and otherwise the record of the first containing polygon in dataset
order (so a point in exactly one polygon gets the properties of that polygon, with
data_available = true). -/
theorem watershed_point_in_polygon (lat lon : ℚ)
    (containsP : PyVal → ℚ → ℚ → Except PyExc Bool) (kvs : List (String × PyVal))
    (fs : List PyVal)
    (hfeat : dictLookup kvs "features" = Option.some (PyVal.list fs))
    (hwf : ∀ f ∈ fs, watershedCandidateWF f = true) :
    ((∀ f ∈ fs, containsP (featGeom f) lon lat = Except.ok false) →
      get_watershed_for_location lat lon containsP (PyVal.dict kvs) =
        Except.ok watershedPlaceholder) ∧
    (∀ pre f post, fs = pre ++ f :: post →
      (∀ g ∈ pre, containsP (featGeom g) lon lat = Except.ok false) →
      containsP (featGeom f) lon lat = Except.ok true →
      get_watershed_for_location lat lon containsP (PyVal.dict kvs) =
        Except.ok (watershedRecordOf f) ∧
      (watershedRecordOf f).data_available = true ∧
      (watershedRecordOf f).source = "Havza GeoJSON") := by
  constructor
  · intro hall
    by_cases hfse : fs = []
    · have hkne : kvs ≠ [] := dictLookup_ne_nil hfeat
      have htg : truthy (PyVal.dict kvs) = true := by simp [truthy, hkne]
      unfold get_watershed_for_location
      rw [if_neg (by rw [htg]; simp)]
      rw [show pyAttrGet (PyVal.dict kvs) "features" = Except.ok (PyVal.list fs) by
        simp [pyAttrGet, hfeat]]
      rw [except_bind_ok]
      rw [if_pos (by rw [hfse]; simp [truthy])]
      rfl
    · rw [watershed_main_eq lat lon containsP kvs fs hfeat hfse]
      exact watershedLoop_all_false lat lon containsP fs hwf hall
  · intro pre f post hsplit hpre hf
    have hfs : fs ≠ [] := by
      rw [hsplit]
      intro h
      exact absurd (List.append_eq_nil.mp h).2 (List.cons_ne_nil f post)
    refine ⟨?_, rfl, rfl⟩
    rw [watershed_main_eq lat lon containsP kvs fs hfeat hfs, hsplit]
    exact watershedLoop_first_true lat lon containsP pre f post (hsplit ▸ hwf) hpre hf

/-- Two sample polygon features with distinct coordinate markers. -/
def wsFeatA : PyVal :=
  PyVal.dict [("geometry", PyVal.dict [("coordinates",
      PyVal.list [PyVal.num 1, PyVal.num 2])]),
    ("properties", PyVal.dict [("havza_ad", PyVal.str "Basin A"),
      ("havza_no", PyVal.str "01"), ("water_stress", PyVal.str "low")])]

/-- The second sample polygon feature. -/
def wsFeatB : PyVal :=
  PyVal.dict [("geometry", PyVal.dict [("coordinates",
      PyVal.list [PyVal.num 3, PyVal.num 4])]),
    ("properties", PyVal.dict [("havza_ad", PyVal.str "Basin B"),
      ("havza_no", PyVal.str "02"), ("su_stresi", PyVal.str "Yüksek")])]

/-- The sample watershed dataset object. -/
def wsKvs : List (String × PyVal) :=
  [("features", PyVal.list [wsFeatA, wsFeatB])]

/-- A concrete containment test marking only the geometry of `wsFeatB`. -/
def sampleContains (g : PyVal) (_lonq _latq : ℚ) : Except PyExc Bool :=
  Except.ok (match pget g "coordinates" with
    | PyVal.list (PyVal.num a :: _) => decide (a = 3)
    | _ => false)

/-- Witness for C7: the second polygon contains the point and is returned. -/
theorem watershed_point_in_polygon_witness :
    get_watershed_for_location 9 9 sampleContains (PyVal.dict wsKvs) =
      Except.ok (watershedRecordOf wsFeatB) := by
  refine (((watershed_point_in_polygon 9 9 sampleContains wsKvs [wsFeatA, wsFeatB]
    rfl (by decide)).2 [wsFeatA] wsFeatB [] rfl ?_ rfl).1)
  intro g hg
  rw [List.mem_singleton] at hg
  rw [hg]
  rfl

end Irrigation
